import Mathlib

/-!
# Verification of the RTanks player-statistics extraction engine

A shallow embedding, over `List Char`, of the HTML-extraction layer of the
RTanks statistics bot: `_parse_player_data` from `src/scraper.py` together
with the helpers it uses from `src/utils.py`.

Documents are modelled as the raw text the Python code regex-scans, plus a
few fields abstracting the `BeautifulSoup` structural queries the code
performs (span texts, presence of profile-shaped elements).  Every regular
expression used by the source is implemented as an executable matcher over
`List Char`; where a pattern admits no backtracking (justified in a comment
at the definition) the matcher is written deterministically, otherwise the
matcher enumerates alternatives in the backtracking preference order of
Python's `re` module.

The equipment name lists (`TURRET_NAMES`, `HULL_NAMES`) and the emoji table
(`RANK_EMOJIS`) live in a `config` module that is not part of the sources;
the name lists are therefore passed as parameters, and only the rank-name →
index computation of `get_rank_emoji` (which is entirely in `utils.py`) is
embedded.
-/

/-- Document text, as Python treats it: a sequence of Unicode code points. -/
abbrev Str := List Char

/-- ASCII decimal digit test (what `\d` matches on the documents considered;
Python's `re` also accepts Unicode digits, which never occur here). -/
def isDigitC (c : Char) : Bool := '0' ≤ c && c ≤ '9'

/-- Nonzero ASCII decimal digit, the class `[1-9]`. -/
def isDigit19 (c : Char) : Bool := '1' ≤ c && c ≤ '9'

/-- The characters matched by `\s` (and stripped by `str.strip()`):
space, tab, newline, carriage return, vertical tab, form feed. -/
def isSpaceC (c : Char) : Bool :=
  c = ' ' || c = '\t' || c = '\n' || c = '\r' || c = Char.ofNat 0x0B || c = Char.ofNat 0x0C

/-- The class `[:\s]` appearing after every label in the source's patterns. -/
def isColonSpace (c : Char) : Bool := c = ':' || isSpaceC c

/-- ASCII alphanumeric, the class `[a-zA-Z0-9]`. -/
def isAlnum (c : Char) : Bool :=
  ('a' ≤ c && c ≤ 'z') || ('A' ≤ c && c ≤ 'Z') || isDigitC c

/-- Lower-casing, embedding `str.lower()` / `re.IGNORECASE` folding on the
characters that can occur here: ASCII, the Latin-1 capitals U+00C0-U+00DE
(excluding the multiplication sign U+00D7), and the Greek capitals
U+0391-U+03A9 (excluding the gap U+03A2), each of which Python lowers by
adding 0x20.  This covers every cased character of the source's mis-encoded
literals (Ä Å Ç É Ñ Ü Ω all occur in them); in particular a lowered
document can never contain Ç or Ω, so the line-107 membership test against
the mis-encoded Russian "user not found" literal is as unsatisfiable here
as it is in the program. -/
def lowerC (c : Char) : Char :=
  if 'A' ≤ c && c ≤ 'Z' then Char.ofNat (c.toNat + 32)
  else if (0xC0 ≤ c.toNat && c.toNat ≤ 0xDE) && c.toNat ≠ 0xD7 then
    Char.ofNat (c.toNat + 32)
  else if (0x391 ≤ c.toNat && c.toNat ≤ 0x3A9) && c.toNat ≠ 0x3A2 then
    Char.ofNat (c.toNat + 32)
  else c

/-- Python `str.lower()` over a whole string. -/
def lowerS (s : Str) : Str := s.map lowerC

/-- Case-insensitive character comparison (`re.IGNORECASE`). -/
def eqCI (a b : Char) : Bool := lowerC a = lowerC b

/-- Value of an ASCII digit character. -/
def digitVal (c : Char) : Nat := c.toNat - 48

/-- Digit rendering with structural fuel (any fuel above the digit count
gives the value; `natDigits` supplies `n + 1`, always sufficient). -/
def natDigitsAux : Nat → Nat → Str
  | 0, _ => []
  | fuel + 1, n =>
    if n < 10 then [Char.ofNat (48 + n)]
    else natDigitsAux fuel (n / 10) ++ [Char.ofNat (48 + n % 10)]

/-- Digits of `n`, most significant first: Python's `str(n)` for `n : ℕ`. -/
def natDigits (n : Nat) : Str := natDigitsAux (n + 1) n

/-- Numeric value of a digit string, most significant first. -/
def natOfDigits (s : Str) : Nat := s.foldl (fun a c => 10 * a + digitVal c) 0

/-- Python `str.strip()`: remove leading and trailing whitespace. -/
def pyStrip (s : Str) : Str := (s.dropWhile isSpaceC).reverse.dropWhile isSpaceC |>.reverse

/-- Python's `int(s)` on the strings arising here: leading/trailing
whitespace is tolerated, the rest must be a nonempty run of digits;
otherwise a `ValueError` is raised, modelled as `none`.  (Signs and
underscores, which `int` would also accept, can never occur in the
captured groups this is applied to.) -/
def pyIntOfStr (s : Str) : Option Nat :=
  let t := pyStrip s
  if t ≠ [] && t.all isDigitC then some (natOfDigits t) else none

/-- Python `s.replace(',', '').replace(' ', '')`, the separator stripping applied
to captured numeric groups before `int()`. -/
def stripCommaSpace (s : Str) : Str := s.filter (fun c => c ≠ ',' && c ≠ ' ')

/-- Python's `str.isdigit()` on ASCII text: nonempty and all digits. -/
def pyIsDigit (s : Str) : Bool := s ≠ [] && s.all isDigitC

/-- Substring containment: `needle in haystack` for Python `str`. -/
def containsSub (haystack needle : Str) : Bool :=
  match haystack with
  | [] => needle = []
  | _ :: t => needle.isPrefixOf haystack || containsSub t needle

/-- Case-insensitive prefix test, used by the case-insensitive searches. -/
def isPrefixOfCI (needle haystack : Str) : Bool :=
  match needle, haystack with
  | [], _ => true
  | _ :: _, [] => false
  | a :: as, b :: bs => eqCI a b && isPrefixOfCI as bs

/-- Case-insensitive substring containment. -/
def containsSubCI (haystack needle : Str) : Bool :=
  match haystack with
  | [] => needle = []
  | _ :: t => isPrefixOfCI needle haystack || containsSubCI t needle

/-- First-occurrence-preserving deduplication: `list(dict.fromkeys(xs))`
from scraper.py lines 548-549. -/
def dedupFirstAux : Nat → List Str → List Str
  | 0, _ => []
  | fuel + 1, xs =>
    match xs with
    | [] => []
    | x :: t => x :: dedupFirstAux fuel (t.filter (fun y => y ≠ x))

def dedupFirst (xs : List Str) : List Str := dedupFirstAux xs.length xs
/-- Helper: build a char list from code points (used for the mis-encoded Russian
literals that appear verbatim in the source file). -/
def cl (ns : List Nat) : Str := ns.map Char.ofNat

/-- The mis-encoded Russian "user not found" literal, scraper.py line 107. -/
def ruUserNotFound : Str := cl [(0x2013 : Nat), (0x00F8 : Nat), (0x2013 : Nat), (0x00E6 : Nat), (0x2013 : Nat), (0x00AA : Nat), (0x2014 : Nat), (0x00E5 : Nat), (0x2013 : Nat), (0x2211 : Nat), (0x2013 : Nat), (0x00E6 : Nat), (0x2013 : Nat), (0x2264 : Nat), (0x2013 : Nat), (0x221E : Nat), (0x2014 : Nat), (0x00C7 : Nat), (0x2013 : Nat), (0x00B5 : Nat), (0x2013 : Nat), (0x00AA : Nat), (0x2014 : Nat), (0x00E5 : Nat), (0x0020 : Nat), (0x2013 : Nat), (0x03A9 : Nat), (0x2013 : Nat), (0x00B5 : Nat), (0x0020 : Nat), (0x2013 : Nat), (0x03A9 : Nat), (0x2013 : Nat), (0x221E : Nat), (0x2013 : Nat), (0x03C0 : Nat), (0x2013 : Nat), (0x00A5 : Nat), (0x2013 : Nat), (0x00B5 : Nat), (0x2013 : Nat), (0x03A9 : Nat)]
/-- Mis-encoded Russian spelling paired with "Legend" in the rank tables (scraper.py lines 262-338). -/
def ruLegend : Str := cl [(0x2013 : Nat), (0x00F5 : Nat), (0x2013 : Nat), (0x00B5 : Nat), (0x2013 : Nat), (0x2265 : Nat), (0x2013 : Nat), (0x00B5 : Nat), (0x2013 : Nat), (0x03A9 : Nat), (0x2013 : Nat), (0x00A5 : Nat), (0x2013 : Nat), (0x221E : Nat)]
/-- Mis-encoded Russian spelling paired with "Generalissimo" in the rank tables (scraper.py lines 262-338). -/
def ruGeneralissimo : Str := cl [(0x2013 : Nat), (0x00EC : Nat), (0x2013 : Nat), (0x00B5 : Nat), (0x2013 : Nat), (0x03A9 : Nat), (0x2013 : Nat), (0x00B5 : Nat), (0x2014 : Nat), (0x00C4 : Nat), (0x2013 : Nat), (0x221E : Nat), (0x2013 : Nat), (0x00AA : Nat), (0x2013 : Nat), (0x220F : Nat), (0x2014 : Nat), (0x00C5 : Nat), (0x2014 : Nat), (0x00C5 : Nat), (0x2013 : Nat), (0x220F : Nat), (0x2013 : Nat), (0x00BA : Nat), (0x2014 : Nat), (0x00C9 : Nat), (0x2014 : Nat), (0x00C5 : Nat)]
/-- Mis-encoded Russian spelling paired with "Brigadier Commander" in the rank tables (scraper.py lines 262-338). -/
def ruBrigadierCommander : Str := cl [(0x2013 : Nat), (0x00F6 : Nat), (0x2013 : Nat), (0x00E6 : Nat), (0x2013 : Nat), (0x00BA : Nat), (0x2013 : Nat), (0x221E : Nat), (0x2013 : Nat), (0x03A9 : Nat), (0x2013 : Nat), (0x00A5 : Nat), (0x2013 : Nat), (0x220F : Nat), (0x2014 : Nat), (0x00C4 : Nat), (0x0020 : Nat), (0x2013 : Nat), (0x00B1 : Nat), (0x2014 : Nat), (0x00C4 : Nat), (0x2013 : Nat), (0x220F : Nat), (0x2013 : Nat), (0x2265 : Nat), (0x2013 : Nat), (0x221E : Nat), (0x2013 : Nat), (0x00A5 : Nat), (0x2014 : Nat), (0x00E3 : Nat)]
/-- Mis-encoded Russian spelling paired with "Colonel Commander" in the rank tables (scraper.py lines 262-338). -/
def ruColonelCommander : Str := cl [(0x2013 : Nat), (0x00F6 : Nat), (0x2013 : Nat), (0x00E6 : Nat), (0x2013 : Nat), (0x00BA : Nat), (0x2013 : Nat), (0x221E : Nat), (0x2013 : Nat), (0x03A9 : Nat), (0x2013 : Nat), (0x00A5 : Nat), (0x2013 : Nat), (0x220F : Nat), (0x2014 : Nat), (0x00C4 : Nat), (0x0020 : Nat), (0x2013 : Nat), (0x00F8 : Nat), (0x2013 : Nat), (0x00E6 : Nat), (0x2013 : Nat), (0x00AA : Nat), (0x2013 : Nat), (0x222B : Nat), (0x2013 : Nat), (0x00E6 : Nat), (0x2013 : Nat), (0x2264 : Nat), (0x2013 : Nat), (0x03A9 : Nat), (0x2013 : Nat), (0x220F : Nat), (0x2013 : Nat), (0x222B : Nat)]
/-- Mis-encoded Russian spelling paired with "Lieutenant Colonel Commander" in the rank tables (scraper.py lines 262-338). -/
def ruLieutenantColonelCommander : Str := cl [(0x2013 : Nat), (0x00F6 : Nat), (0x2013 : Nat), (0x00E6 : Nat), (0x2013 : Nat), (0x00BA : Nat), (0x2013 : Nat), (0x221E : Nat), (0x2013 : Nat), (0x03A9 : Nat), (0x2013 : Nat), (0x00A5 : Nat), (0x2013 : Nat), (0x220F : Nat), (0x2014 : Nat), (0x00C4 : Nat), (0x0020 : Nat), (0x2013 : Nat), (0x00F8 : Nat), (0x2013 : Nat), (0x00E6 : Nat), (0x2013 : Nat), (0x00A5 : Nat), (0x2013 : Nat), (0x00F8 : Nat), (0x2013 : Nat), (0x00E6 : Nat), (0x2013 : Nat), (0x00AA : Nat), (0x2013 : Nat), (0x222B : Nat), (0x2013 : Nat), (0x00E6 : Nat), (0x2013 : Nat), (0x2264 : Nat), (0x2013 : Nat), (0x03A9 : Nat), (0x2013 : Nat), (0x220F : Nat), (0x2013 : Nat), (0x222B : Nat)]
/-- Mis-encoded Russian spelling paired with "Major Commander" in the rank tables (scraper.py lines 262-338). -/
def ruMajorCommander : Str := cl [(0x2013 : Nat), (0x00F6 : Nat), (0x2013 : Nat), (0x00E6 : Nat), (0x2013 : Nat), (0x00BA : Nat), (0x2013 : Nat), (0x221E : Nat), (0x2013 : Nat), (0x03A9 : Nat), (0x2013 : Nat), (0x00A5 : Nat), (0x2013 : Nat), (0x220F : Nat), (0x2014 : Nat), (0x00C4 : Nat), (0x0020 : Nat), (0x2013 : Nat), (0x00BA : Nat), (0x2013 : Nat), (0x221E : Nat), (0x2013 : Nat), (0x03C0 : Nat), (0x2013 : Nat), (0x00E6 : Nat), (0x2014 : Nat), (0x00C4 : Nat)]
/-- Mis-encoded Russian spelling paired with "Captain Commander" in the rank tables (scraper.py lines 262-338). -/
def ruCaptainCommander : Str := cl [(0x2013 : Nat), (0x00F6 : Nat), (0x2013 : Nat), (0x00E6 : Nat), (0x2013 : Nat), (0x00BA : Nat), (0x2013 : Nat), (0x221E : Nat), (0x2013 : Nat), (0x03A9 : Nat), (0x2013 : Nat), (0x00A5 : Nat), (0x2013 : Nat), (0x220F : Nat), (0x2014 : Nat), (0x00C4 : Nat), (0x0020 : Nat), (0x2013 : Nat), (0x222B : Nat), (0x2013 : Nat), (0x221E : Nat), (0x2013 : Nat), (0x00F8 : Nat), (0x2013 : Nat), (0x220F : Nat), (0x2014 : Nat), (0x00C7 : Nat), (0x2013 : Nat), (0x221E : Nat), (0x2013 : Nat), (0x03A9 : Nat)]
/-- Mis-encoded Russian spelling paired with "Lieutenant Commander" in the rank tables (scraper.py lines 262-338). -/
def ruLieutenantCommander : Str := cl [(0x2013 : Nat), (0x00F6 : Nat), (0x2013 : Nat), (0x00E6 : Nat), (0x2013 : Nat), (0x00BA : Nat), (0x2013 : Nat), (0x221E : Nat), (0x2013 : Nat), (0x03A9 : Nat), (0x2013 : Nat), (0x00A5 : Nat), (0x2013 : Nat), (0x220F : Nat), (0x2014 : Nat), (0x00C4 : Nat), (0x0020 : Nat), (0x2013 : Nat), (0x00AA : Nat), (0x2013 : Nat), (0x00B5 : Nat), (0x2013 : Nat), (0x03C0 : Nat), (0x2014 : Nat), (0x00C7 : Nat), (0x2013 : Nat), (0x00B5 : Nat), (0x2013 : Nat), (0x03A9 : Nat), (0x2013 : Nat), (0x221E : Nat), (0x2013 : Nat), (0x03A9 : Nat), (0x2014 : Nat), (0x00C7 : Nat)]
/-- Mis-encoded Russian spelling paired with "Commander" in the rank tables (scraper.py lines 262-338). -/
def ruCommander : Str := cl [(0x2013 : Nat), (0x00F6 : Nat), (0x2013 : Nat), (0x00E6 : Nat), (0x2013 : Nat), (0x00BA : Nat), (0x2013 : Nat), (0x221E : Nat), (0x2013 : Nat), (0x03A9 : Nat), (0x2013 : Nat), (0x00A5 : Nat), (0x2013 : Nat), (0x220F : Nat), (0x2014 : Nat), (0x00C4 : Nat)]
/-- Mis-encoded Russian spelling paired with "Field Marshal" in the rank tables (scraper.py lines 262-338). -/
def ruFieldMarshal : Str := cl [(0x2013 : Nat), (0x00A7 : Nat), (0x2013 : Nat), (0x00B5 : Nat), (0x2013 : Nat), (0x00AA : Nat), (0x2014 : Nat), (0x00E5 : Nat), (0x2013 : Nat), (0x00A5 : Nat), (0x2013 : Nat), (0x00BA : Nat), (0x2013 : Nat), (0x221E : Nat), (0x2014 : Nat), (0x00C4 : Nat), (0x2014 : Nat), (0x00E0 : Nat), (0x2013 : Nat), (0x221E : Nat), (0x2013 : Nat), (0x00AA : Nat)]
/-- Mis-encoded Russian spelling paired with "Marshal" in the rank tables (scraper.py lines 262-338). -/
def ruMarshal : Str := cl [(0x2013 : Nat), (0x00FA : Nat), (0x2013 : Nat), (0x221E : Nat), (0x2014 : Nat), (0x00C4 : Nat), (0x2014 : Nat), (0x00E0 : Nat), (0x2013 : Nat), (0x221E : Nat), (0x2013 : Nat), (0x00AA : Nat)]
/-- Mis-encoded Russian spelling paired with "General" in the rank tables (scraper.py lines 262-338). -/
def ruGeneral : Str := cl [(0x2013 : Nat), (0x00EC : Nat), (0x2013 : Nat), (0x00B5 : Nat), (0x2013 : Nat), (0x03A9 : Nat), (0x2013 : Nat), (0x00B5 : Nat), (0x2014 : Nat), (0x00C4 : Nat), (0x2013 : Nat), (0x221E : Nat), (0x2013 : Nat), (0x00AA : Nat)]
/-- Mis-encoded Russian spelling paired with "Lieutenant General" in the rank tables (scraper.py lines 262-338). -/
def ruLieutenantGeneral : Str := cl [(0x2013 : Nat), (0x00EC : Nat), (0x2013 : Nat), (0x00B5 : Nat), (0x2013 : Nat), (0x03A9 : Nat), (0x2013 : Nat), (0x00B5 : Nat), (0x2014 : Nat), (0x00C4 : Nat), (0x2013 : Nat), (0x221E : Nat), (0x2013 : Nat), (0x00AA : Nat), (0x002D : Nat), (0x2013 : Nat), (0x00AA : Nat), (0x2013 : Nat), (0x00B5 : Nat), (0x2013 : Nat), (0x03C0 : Nat), (0x2014 : Nat), (0x00C7 : Nat), (0x2013 : Nat), (0x00B5 : Nat), (0x2013 : Nat), (0x03A9 : Nat), (0x2013 : Nat), (0x221E : Nat), (0x2013 : Nat), (0x03A9 : Nat), (0x2014 : Nat), (0x00C7 : Nat)]
/-- Mis-encoded Russian spelling paired with "Major General" in the rank tables (scraper.py lines 262-338). -/
def ruMajorGeneral : Str := cl [(0x2013 : Nat), (0x00EC : Nat), (0x2013 : Nat), (0x00B5 : Nat), (0x2013 : Nat), (0x03A9 : Nat), (0x2013 : Nat), (0x00B5 : Nat), (0x2014 : Nat), (0x00C4 : Nat), (0x2013 : Nat), (0x221E : Nat), (0x2013 : Nat), (0x00AA : Nat), (0x002D : Nat), (0x2013 : Nat), (0x00BA : Nat), (0x2013 : Nat), (0x221E : Nat), (0x2013 : Nat), (0x03C0 : Nat), (0x2013 : Nat), (0x00E6 : Nat), (0x2014 : Nat), (0x00C4 : Nat)]
/-- Mis-encoded Russian spelling paired with "Brigadier" in the rank tables (scraper.py lines 262-338). -/
def ruBrigadier : Str := cl [(0x2013 : Nat), (0x00EB : Nat), (0x2014 : Nat), (0x00C4 : Nat), (0x2013 : Nat), (0x220F : Nat), (0x2013 : Nat), (0x2265 : Nat), (0x2013 : Nat), (0x221E : Nat), (0x2013 : Nat), (0x00A5 : Nat), (0x2013 : Nat), (0x220F : Nat), (0x2014 : Nat), (0x00C4 : Nat)]
/-- Mis-encoded Russian spelling paired with "Colonel" in the rank tables (scraper.py lines 262-338). -/
def ruColonel : Str := cl [(0x2013 : Nat), (0x00FC : Nat), (0x2013 : Nat), (0x00E6 : Nat), (0x2013 : Nat), (0x00AA : Nat), (0x2013 : Nat), (0x222B : Nat), (0x2013 : Nat), (0x00E6 : Nat), (0x2013 : Nat), (0x2264 : Nat), (0x2013 : Nat), (0x03A9 : Nat), (0x2013 : Nat), (0x220F : Nat), (0x2013 : Nat), (0x222B : Nat)]
/-- Mis-encoded Russian spelling paired with "Lieutenant Colonel" in the rank tables (scraper.py lines 262-338). -/
def ruLieutenantColonel : Str := cl [(0x2013 : Nat), (0x00FC : Nat), (0x2013 : Nat), (0x00E6 : Nat), (0x2013 : Nat), (0x00A5 : Nat), (0x2013 : Nat), (0x00F8 : Nat), (0x2013 : Nat), (0x00E6 : Nat), (0x2013 : Nat), (0x00AA : Nat), (0x2013 : Nat), (0x222B : Nat), (0x2013 : Nat), (0x00E6 : Nat), (0x2013 : Nat), (0x2264 : Nat), (0x2013 : Nat), (0x03A9 : Nat), (0x2013 : Nat), (0x220F : Nat), (0x2013 : Nat), (0x222B : Nat)]
/-- Mis-encoded Russian spelling paired with "Major" in the rank tables (scraper.py lines 262-338). -/
def ruMajor : Str := cl [(0x2013 : Nat), (0x00FA : Nat), (0x2013 : Nat), (0x221E : Nat), (0x2013 : Nat), (0x03C0 : Nat), (0x2013 : Nat), (0x00E6 : Nat), (0x2014 : Nat), (0x00C4 : Nat)]
/-- Mis-encoded Russian spelling paired with "Captain" in the rank tables (scraper.py lines 262-338). -/
def ruCaptain : Str := cl [(0x2013 : Nat), (0x00F6 : Nat), (0x2013 : Nat), (0x221E : Nat), (0x2013 : Nat), (0x00F8 : Nat), (0x2013 : Nat), (0x220F : Nat), (0x2014 : Nat), (0x00C7 : Nat), (0x2013 : Nat), (0x221E : Nat), (0x2013 : Nat), (0x03A9 : Nat)]
/-- Mis-encoded Russian spelling paired with "First Lieutenant" in the rank tables (scraper.py lines 262-338). -/
def ruFirstLieutenant : Str := cl [(0x2013 : Nat), (0x00B0 : Nat), (0x2014 : Nat), (0x00C7 : Nat), (0x2013 : Nat), (0x221E : Nat), (0x2014 : Nat), (0x00C4 : Nat), (0x2014 : Nat), (0x00E0 : Nat), (0x2013 : Nat), (0x220F : Nat), (0x2013 : Nat), (0x03C0 : Nat), (0x0020 : Nat), (0x2013 : Nat), (0x00AA : Nat), (0x2013 : Nat), (0x00B5 : Nat), (0x2013 : Nat), (0x03C0 : Nat), (0x2014 : Nat), (0x00C7 : Nat), (0x2013 : Nat), (0x00B5 : Nat), (0x2013 : Nat), (0x03A9 : Nat), (0x2013 : Nat), (0x221E : Nat), (0x2013 : Nat), (0x03A9 : Nat), (0x2014 : Nat), (0x00C7 : Nat)]
/-- Mis-encoded Russian spelling paired with "Second Lieutenant" in the rank tables (scraper.py lines 262-338). -/
def ruSecondLieutenant : Str := cl [(0x2013 : Nat), (0x00F5 : Nat), (0x2013 : Nat), (0x00B5 : Nat), (0x2013 : Nat), (0x03C0 : Nat), (0x2014 : Nat), (0x00C7 : Nat), (0x2013 : Nat), (0x00B5 : Nat), (0x2013 : Nat), (0x03A9 : Nat), (0x2013 : Nat), (0x221E : Nat), (0x2013 : Nat), (0x03A9 : Nat), (0x2014 : Nat), (0x00C7 : Nat)]
/-- Mis-encoded Russian spelling paired with "Master Warrant Officer" in the rank tables (scraper.py lines 262-338). -/
def ruMasterWarrantOfficer : Str := cl [(0x2013 : Nat), (0x00B0 : Nat), (0x2014 : Nat), (0x00C7 : Nat), (0x2013 : Nat), (0x221E : Nat), (0x2014 : Nat), (0x00C4 : Nat), (0x2014 : Nat), (0x00E0 : Nat), (0x2013 : Nat), (0x220F : Nat), (0x2013 : Nat), (0x03C0 : Nat), (0x0020 : Nat), (0x2013 : Nat), (0x00F8 : Nat), (0x2014 : Nat), (0x00C4 : Nat), (0x2013 : Nat), (0x221E : Nat), (0x2013 : Nat), (0x00F8 : Nat), (0x2013 : Nat), (0x00E6 : Nat), (0x2014 : Nat), (0x00C4 : Nat), (0x2014 : Nat), (0x00E2 : Nat), (0x2013 : Nat), (0x220F : Nat), (0x2013 : Nat), (0x222B : Nat)]
/-- Mis-encoded Russian spelling paired with "Warrant Officer" in the rank tables (scraper.py lines 262-338). -/
def ruWarrantOfficer : Str := cl [(0x2013 : Nat), (0x00FC : Nat), (0x2014 : Nat), (0x00C4 : Nat), (0x2013 : Nat), (0x221E : Nat), (0x2013 : Nat), (0x00F8 : Nat), (0x2013 : Nat), (0x00E6 : Nat), (0x2014 : Nat), (0x00C4 : Nat), (0x2014 : Nat), (0x00E2 : Nat), (0x2013 : Nat), (0x220F : Nat), (0x2013 : Nat), (0x222B : Nat)]
/-- Mis-encoded Russian spelling paired with "Sergeant Major" in the rank tables (scraper.py lines 262-338). -/
def ruSergeantMajor : Str := cl [(0x2013 : Nat), (0x00B0 : Nat), (0x2014 : Nat), (0x00C7 : Nat), (0x2013 : Nat), (0x221E : Nat), (0x2014 : Nat), (0x00C4 : Nat), (0x2014 : Nat), (0x00E0 : Nat), (0x2013 : Nat), (0x220F : Nat), (0x2013 : Nat), (0x03A9 : Nat), (0x2013 : Nat), (0x221E : Nat)]
/-- Mis-encoded Russian spelling paired with "First Sergeant" in the rank tables (scraper.py lines 262-338). -/
def ruFirstSergeant : Str := cl [(0x2013 : Nat), (0x00B0 : Nat), (0x2014 : Nat), (0x00C7 : Nat), (0x2013 : Nat), (0x221E : Nat), (0x2014 : Nat), (0x00C4 : Nat), (0x2014 : Nat), (0x00E0 : Nat), (0x2013 : Nat), (0x220F : Nat), (0x2013 : Nat), (0x03C0 : Nat), (0x0020 : Nat), (0x2014 : Nat), (0x00C5 : Nat), (0x2013 : Nat), (0x00B5 : Nat), (0x2014 : Nat), (0x00C4 : Nat), (0x2013 : Nat), (0x2202 : Nat), (0x2013 : Nat), (0x221E : Nat), (0x2013 : Nat), (0x03A9 : Nat), (0x2014 : Nat), (0x00C7 : Nat)]
/-- Mis-encoded Russian spelling paired with "Master Sergeant" in the rank tables (scraper.py lines 262-338). -/
def ruMasterSergeant : Str := cl [(0x2013 : Nat), (0x00B0 : Nat), (0x2013 : Nat), (0x00B5 : Nat), (0x2014 : Nat), (0x00C4 : Nat), (0x2013 : Nat), (0x2202 : Nat), (0x2013 : Nat), (0x221E : Nat), (0x2013 : Nat), (0x03A9 : Nat), (0x2014 : Nat), (0x00C7 : Nat)]
/-- Mis-encoded Russian spelling paired with "Staff Sergeant" in the rank tables (scraper.py lines 262-338). -/
def ruStaffSergeant : Str := cl [(0x2013 : Nat), (0x00FA : Nat), (0x2013 : Nat), (0x00AA : Nat), (0x2013 : Nat), (0x221E : Nat), (0x2013 : Nat), (0x00A5 : Nat), (0x2014 : Nat), (0x00E0 : Nat), (0x2013 : Nat), (0x220F : Nat), (0x2013 : Nat), (0x03C0 : Nat), (0x0020 : Nat), (0x2014 : Nat), (0x00C5 : Nat), (0x2013 : Nat), (0x00B5 : Nat), (0x2014 : Nat), (0x00C4 : Nat), (0x2013 : Nat), (0x2202 : Nat), (0x2013 : Nat), (0x221E : Nat), (0x2013 : Nat), (0x03A9 : Nat), (0x2014 : Nat), (0x00C7 : Nat)]
/-- Mis-encoded Russian spelling paired with "Sergeant" in the rank tables (scraper.py lines 262-338). -/
def ruSergeant : Str := cl [(0x2013 : Nat), (0x00EF : Nat), (0x2014 : Nat), (0x00D1 : Nat), (0x2014 : Nat), (0x00C4 : Nat), (0x2013 : Nat), (0x00B5 : Nat), (0x2013 : Nat), (0x03C0 : Nat), (0x2014 : Nat), (0x00C7 : Nat), (0x2013 : Nat), (0x00E6 : Nat), (0x2014 : Nat), (0x00C4 : Nat)]
/-- Mis-encoded Russian spelling paired with "Master Corporal" in the rank tables (scraper.py lines 262-338). -/
def ruMasterCorporal : Str := cl [(0x2013 : Nat), (0x00B0 : Nat), (0x2014 : Nat), (0x00C7 : Nat), (0x2013 : Nat), (0x221E : Nat), (0x2014 : Nat), (0x00C4 : Nat), (0x2014 : Nat), (0x00E0 : Nat), (0x2013 : Nat), (0x220F : Nat), (0x2013 : Nat), (0x03C0 : Nat), (0x0020 : Nat), (0x2013 : Nat), (0x00B5 : Nat), (0x2014 : Nat), (0x00D1 : Nat), (0x2014 : Nat), (0x00C4 : Nat), (0x2013 : Nat), (0x00B5 : Nat), (0x2013 : Nat), (0x03C0 : Nat), (0x2014 : Nat), (0x00C7 : Nat), (0x2013 : Nat), (0x00E6 : Nat), (0x2014 : Nat), (0x00C4 : Nat)]
/-- Mis-encoded Russian spelling paired with "Corporal" in the rank tables (scraper.py lines 262-338). -/
def ruCorporal : Str := cl [(0x2013 : Nat), (0x00F6 : Nat), (0x2013 : Nat), (0x221E : Nat), (0x2013 : Nat), (0x00F8 : Nat), (0x2014 : Nat), (0x00C4 : Nat), (0x2013 : Nat), (0x221E : Nat), (0x2013 : Nat), (0x00AA : Nat)]
/-- Mis-encoded Russian spelling paired with "Gefreiter" in the rank tables (scraper.py lines 262-338). -/
def ruGefreiter : Str := cl [(0x2013 : Nat), (0x00EC : Nat), (0x2013 : Nat), (0x00B5 : Nat), (0x2014 : Nat), (0x00D1 : Nat), (0x2014 : Nat), (0x00C4 : Nat), (0x2013 : Nat), (0x00B5 : Nat), (0x2013 : Nat), (0x03C0 : Nat), (0x2014 : Nat), (0x00C7 : Nat), (0x2013 : Nat), (0x00E6 : Nat), (0x2014 : Nat), (0x00C4 : Nat)]
/-- Mis-encoded Russian spelling paired with "Private" in the rank tables (scraper.py lines 262-338). -/
def ruPrivate : Str := cl [(0x2013 : Nat), (0x2020 : Nat), (0x2014 : Nat), (0x00E8 : Nat), (0x2013 : Nat), (0x00A5 : Nat), (0x2013 : Nat), (0x00E6 : Nat), (0x2013 : Nat), (0x2264 : Nat), (0x2013 : Nat), (0x00E6 : Nat), (0x2013 : Nat), (0x03C0 : Nat)]
/-- Mis-encoded Russian spelling paired with "Recruit" in the rank tables (scraper.py lines 262-338). -/
def ruRecruit : Str := cl [(0x2013 : Nat), (0x00F9 : Nat), (0x2013 : Nat), (0x00E6 : Nat), (0x2013 : Nat), (0x2264 : Nat), (0x2013 : Nat), (0x00E6 : Nat), (0x2013 : Nat), (0x00B1 : Nat), (0x2014 : Nat), (0x00C4 : Nat), (0x2013 : Nat), (0x221E : Nat), (0x2013 : Nat), (0x03A9 : Nat), (0x2013 : Nat), (0x00B5 : Nat), (0x2014 : Nat), (0x00DC : Nat)]
/-- The Russian kills label (line 428) as it appears, mis-encoded, in the source. -/
def ruKills : Str := cl [(0x2013 : Nat), (0x00A3 : Nat), (0x2013 : Nat), (0x00B1 : Nat), (0x2013 : Nat), (0x220F : Nat), (0x2013 : Nat), (0x03C0 : Nat), (0x2014 : Nat), (0x00C5 : Nat), (0x2014 : Nat), (0x00C7 : Nat), (0x2013 : Nat), (0x2264 : Nat), (0x2013 : Nat), (0x221E : Nat)]
/-- The Russian deaths label (line 442) as it appears, mis-encoded, in the source. -/
def ruDeaths : Str := cl [(0x2013 : Nat), (0x00B0 : Nat), (0x2013 : Nat), (0x00BA : Nat), (0x2013 : Nat), (0x00B5 : Nat), (0x2014 : Nat), (0x00C4 : Nat), (0x2014 : Nat), (0x00C7 : Nat), (0x2013 : Nat), (0x220F : Nat)]
/-- The Russian premium marker (line 477) as it appears, mis-encoded, in the source. -/
def ruPremium : Str := cl [(0x2013 : Nat), (0x00F8 : Nat), (0x2014 : Nat), (0x00C4 : Nat), (0x2013 : Nat), (0x00B5 : Nat), (0x2013 : Nat), (0x00BA : Nat), (0x2013 : Nat), (0x220F : Nat), (0x2014 : Nat), (0x00C9 : Nat), (0x2013 : Nat), (0x00BA : Nat)]
/-- The first word of the Russian gold-box label (line 463) as it appears, mis-encoded, in the source. -/
def ruGold1 : Str := cl [(0x2013 : Nat), (0x00F3 : Nat), (0x2013 : Nat), (0x00E6 : Nat), (0x2013 : Nat), (0x00AA : Nat), (0x2013 : Nat), (0x00E6 : Nat), (0x2014 : Nat), (0x00C7 : Nat), (0x2014 : Nat), (0x00E3 : Nat), (0x2013 : Nat), (0x00B5 : Nat)]
/-- The second word of the Russian gold-box label (line 463) as it appears, mis-encoded, in the source. -/
def ruGold2 : Str := cl [(0x2013 : Nat), (0x222B : Nat), (0x2013 : Nat), (0x00E6 : Nat), (0x2014 : Nat), (0x00C4 : Nat), (0x2013 : Nat), (0x00E6 : Nat), (0x2013 : Nat), (0x00B1 : Nat), (0x2013 : Nat), (0x222B : Nat), (0x2013 : Nat), (0x220F : Nat)]
/-- The Russian group label (line 487) as it appears, mis-encoded, in the source. -/
def ruGroup : Str := cl [(0x2013 : Nat), (0x00EC : Nat), (0x2014 : Nat), (0x00C4 : Nat), (0x2014 : Nat), (0x00C9 : Nat), (0x2013 : Nat), (0x00F8 : Nat), (0x2013 : Nat), (0x00F8 : Nat), (0x2013 : Nat), (0x221E : Nat)]
/-- The Russian experience label (line 249) as it appears, mis-encoded, in the source. -/
def ruExperience : Str := cl [(0x2013 : Nat), (0x00FB : Nat), (0x2013 : Nat), (0x00F8 : Nat), (0x2014 : Nat), (0x00E3 : Nat), (0x2014 : Nat), (0x00C7 : Nat)]
/-- The mis-encoded red-circle status marker (lines 184, 219) as it appears, mis-encoded, in the source. -/
def redCircle : Str := cl [(0xF8FF : Nat), (0x00FC : Nat), (0x00EE : Nat), (0x00A5 : Nat)]
/-- The mis-encoded green-circle status marker (line 219) as it appears, mis-encoded, in the source. -/
def greenCircle : Str := cl [(0xF8FF : Nat), (0x00FC : Nat), (0x00FC : Nat), (0x00A2 : Nat)]
/-! ## Regular-expression matchers

Each Python pattern is embedded as a matcher over `Str`.  A `Matcher`
returns the list of possible rests of the input after consuming a prefix,
ordered by the backtracking preference of Python's `re` (greedy: longest
consumption first).  `CMatcher α` additionally carries a captured value. -/

/-- Non-capturing matcher: possible rests, in preference order. -/
abbrev Matcher := Str → List Str

/-- Capturing matcher: captured value paired with the rest. -/
abbrev CMatcher (α : Type) := Str → List (α × Str)

/-- Literal string (case-sensitive). -/
def mLit (lit : Str) : Matcher := fun s =>
  if lit.isPrefixOf s then [s.drop lit.length] else []

/-- Literal string under `re.IGNORECASE`. -/
def mLitCI (lit : Str) : Matcher := fun s =>
  if isPrefixOfCI lit s then [s.drop lit.length] else []

/-- Single character from a class. -/
def mCharOf (p : Char → Bool) : Matcher := fun s =>
  match s with
  | c :: t => if p c then [t] else []
  | [] => []

/-- Sequencing: every way to continue each alternative, preference order
preserved. -/
def mSeq (a b : Matcher) : Matcher := fun s => (a s).flatMap b

/-- Alternation `x|y`: left alternative preferred. -/
def mAlt (a b : Matcher) : Matcher := fun s => a s ++ b s

/-- Greedy `x?`: consuming is preferred over not consuming. -/
def mOpt (a : Matcher) : Matcher := fun s => a s ++ [s]

/-- Greedy `c*` over a character class: alternatives from longest
consumption down to none. -/
def mStarOf (p : Char → Bool) : Matcher := fun s =>
  match s with
  | [] => [[]]
  | c :: t => (if p c then mStarOf p t else []) ++ [c :: t]

/-- Greedy `c+` over a character class. -/
def mPlusOf (p : Char → Bool) : Matcher := mSeq (mCharOf p) (mStarOf p)

/-- Greedy `x*` for a subpattern that always consumes at least one
character (zero-width iterations, which `re` forbids anyway, are
discarded).  Alternatives appear in the depth-first order `re` explores:
more iterations first. -/
def mStarGE1Aux (a : Matcher) : Nat → Str → List Str
  | 0, s => [s]
  | fuel + 1, s =>
    (((a s).filter (fun r => r.length < s.length)).flatMap
      (mStarGE1Aux a fuel)) ++ [s]

def mStarGE1 (a : Matcher) : Matcher := fun s => mStarGE1Aux a s.length s

/-- Pattern `\d{1,3}`, greedy: three digits preferred, then two, then one. -/
def mD13 : Matcher :=
  mAlt (mSeq (mCharOf isDigitC) (mSeq (mCharOf isDigitC) (mCharOf isDigitC)))
    (mAlt (mSeq (mCharOf isDigitC) (mCharOf isDigitC)) (mCharOf isDigitC))

/-- Pattern `\d{3}`: exactly three digits. -/
def mD3 : Matcher :=
  mSeq (mCharOf isDigitC) (mSeq (mCharOf isDigitC) (mCharOf isDigitC))

/-- Capture the text a subpattern consumes (all our matchers return
suffixes of their input, so the consumed prefix is determined by
lengths). -/
def cCap (a : Matcher) : CMatcher Str := fun s =>
  (a s).map (fun r => (s.take (s.length - r.length), r))

/-- Run a non-capturing matcher inside a capturing sequence. -/
def cOfM (a : Matcher) : CMatcher Unit := fun s => (a s).map (fun r => ((), r))

/-- Capturing sequencing. -/
def cThen (a : CMatcher α) (b : α → CMatcher β) : CMatcher β := fun s =>
  (a s).flatMap (fun vr => b vr.1 vr.2)

/-- Map over the captured value. -/
def cMap (f : α → β) (a : CMatcher α) : CMatcher β := fun s =>
  (a s).map (fun vr => (f vr.1, vr.2))

/-- Python `re.search`: try each start position left to right, take the first
successful position's preferred result. -/
def searchC (m : CMatcher α) (s : Str) : Option α :=
  match m s with
  | (v, _) :: _ => some v
  | [] =>
    match s with
    | [] => none
    | _ :: t => searchC m t

/-- Leftmost search for an `Option`-valued deterministic matcher
(at the empty input, `m []` is the only position left to try). -/
def searchDet (m : Str → Option α) : Str → Option α
  | [] => m []
  | c :: t =>
    match m (c :: t) with
    | some v => some v
    | none => searchDet m t

/-- Leftmost search returning the rest of the input after the match end
(used for the existence checks over `A.*B` shaped patterns: because the
patterns involved cannot overlap a later occurrence of themselves, the
first match end is the earliest, so searching the remainder is equivalent
to the existential semantics of `.*` under `re.DOTALL`). -/
def searchRest (m : Str → Option Str) (s : Str) : Option Str :=
  match m s with
  | some r => some r
  | none =>
    match s with
    | [] => none
    | _ :: t => searchRest m t

/-- Python `re.findall` for a deterministic matcher returning (captured group,
rest): non-overlapping matches, scanning left to right; an empty
(zero-width) match advances one position, as `re` does. -/
def findallDetAux (m : Str → Option (Str × Str)) : Nat → Str → List Str
  | 0, _ => []
  | fuel + 1, s =>
    match m s with
    | some (g, r) =>
      if r.length < s.length then g :: findallDetAux m fuel r
      else
        g :: (match s with
              | [] => []
              | _ :: t => findallDetAux m fuel t)
    | none =>
      match s with
      | [] => []
      | _ :: t => findallDetAux m fuel t

def findallDet (m : Str → Option (Str × Str)) (s : Str) : List Str :=
  findallDetAux m (s.length + 1) s

/-! ## The concrete patterns of `_parse_player_data` -/

/-- Consume `[Kk]ills?` under `re.IGNORECASE` (kill_patterns[0], scraper.py
line 427).  The optional `s` is taken greedily; this is exact: when the
`s`-consuming branch later fails, the character blocking the non-consuming
branch is that same `s`, which is neither in `[:\s]` nor a digit, so the
non-consuming branch fails too. -/
def consumeKillsLabel (s : Str) : Option Str :=
  match s with
  | a :: b :: c :: d :: rest =>
    if eqCI a 'k' && eqCI b 'i' && eqCI c 'l' && eqCI d 'l' then
      some (match rest with
            | e :: r => if eqCI e 's' then r else e :: r
            | [] => [])
    else none
  | _ => none

/-- Consume `[Dd]eaths?` under `re.IGNORECASE` (death_patterns[0], line
441); greedy `s?` is exact for the same reason as in `consumeKillsLabel`. -/
def consumeDeathsLabel (s : Str) : Option Str :=
  match s with
  | a :: b :: c :: d :: e :: rest =>
    if eqCI a 'd' && eqCI b 'e' && eqCI c 'a' && eqCI d 't' && eqCI e 'h' then
      some (match rest with
            | f :: r => if eqCI f 's' then r else f :: r
            | [] => [])
    else none
  | _ => none

/-- Maximal run of `[:\s]`.  Exact for the patterns that follow the run
with a digit (or `[1-9]`): a character given back by backtracking is in
`[:\s]` and therefore can never satisfy the digit class. -/
def consumeColonSpaceStar (s : Str) : Str := s.dropWhile isColonSpace

/-- Maximal run of `\s`; exact whenever the next pattern element cannot
match a whitespace character. -/
def consumeSpaceStar (s : Str) : Str := s.dropWhile isSpaceC

/-- The extension `(?:[,\s]\d{3})*` of the numeric group, greedily: each
iteration consumes a separator and exactly three digits.  No backtracking
is possible because the group is the final element of its pattern. -/
def numGroupExt : Str → (Str × Str)
  | c :: d1 :: d2 :: d3 :: rest =>
    if (c = ',' || isSpaceC c) && isDigitC d1 && isDigitC d2 && isDigitC d3 then
      let p := numGroupExt rest
      (c :: d1 :: d2 :: d3 :: p.1, p.2)
    else ([], c :: d1 :: d2 :: d3 :: rest)
  | s => ([], s)

/-- The captured numeric group `(\d{1,3}(?:[,\s]\d{3})*)` of the kills,
deaths (and Russian/quoted variants) patterns: up to three leading digits,
then comma- or whitespace-separated three-digit blocks.  Deterministic:
the group ends the pattern, so the greedy choices are final. -/
def numGroupDet (s : Str) : Option (Str × Str) :=
  match s with
  | c :: _ =>
    if isDigitC c then
      let g1 := s.takeWhile isDigitC |>.take 3
      let r1 := s.drop g1.length
      let p := numGroupExt r1
      some (g1 ++ p.1, p.2)
    else none
  | [] => none

/-- Match `[Kk]ills?[:\s]*(\d{1,3}(?:[,\s]\d{3})*)` at the current
position, returning the captured group. -/
def matchKillsAt (s : Str) : Option Str :=
  (consumeKillsLabel s).bind (fun r => (numGroupDet (consumeColonSpaceStar r)).map Prod.fst)

/-- Match `[Dd]eaths?[:\s]*(\d{1,3}(?:[,\s]\d{3})*)` at the current
position. -/
def matchDeathsAt (s : Str) : Option Str :=
  (consumeDeathsLabel s).bind (fun r => (numGroupDet (consumeColonSpaceStar r)).map Prod.fst)

/-- Search for the English kills pattern (`re.search`). -/
def searchKills : Str → Option Str := searchDet matchKillsAt

/-- Search for the English deaths pattern (`re.search`). -/
def searchDeaths : Str → Option Str := searchDet matchDeathsAt

/-- Pattern `label[:\s]*(\d{1,3}(?:[,\s]\d{3})*)` for a fixed literal label
(the Russian and quoted-key kills/deaths variants). -/
def matchLabeledNumAt (label : Str) (s : Str) : Option Str :=
  if isPrefixOfCI label s then
    (numGroupDet (consumeColonSpaceStar (s.drop label.length))).map Prod.fst
  else none

/-- Kills extraction, scraper.py lines 426-438: first matching pattern of
[English, Russian, quoted-key] wins; `int()` on the comma/space-stripped
group is unprotected, so a failing conversion (`none`) aborts the whole
parse. -/
def killsOpt (html : Str) : Option Nat :=
  match searchKills html with
  | some g => pyIntOfStr (stripCommaSpace g)
  | none =>
    match searchDet (matchLabeledNumAt ruKills) html with
    | some g => pyIntOfStr (stripCommaSpace g)
    | none =>
      match searchDet (matchLabeledNumAt ('"' :: ("kills\"".toList))) html with
      | some g => pyIntOfStr (stripCommaSpace g)
      | none => some 0

/-- Deaths extraction, scraper.py lines 440-452, same shape as kills. -/
def deathsOpt (html : Str) : Option Nat :=
  match searchDeaths html with
  | some g => pyIntOfStr (stripCommaSpace g)
  | none =>
    match searchDet (matchLabeledNumAt ruDeaths) html with
    | some g => pyIntOfStr (stripCommaSpace g)
    | none =>
      match searchDet (matchLabeledNumAt ('"' :: ("deaths\"".toList))) html with
      | some g => pyIntOfStr (stripCommaSpace g)
      | none => some 0

/-! ### Meaningful-data check (lines 145-170) -/

/-- Pattern `[Kk]ills?[:\s]*([1-9]\d*)` matches at this position iff after the
label and the maximal `[:\s]` run the next character is a nonzero digit. -/
def matchKillsNZAt (s : Str) : Bool :=
  match consumeKillsLabel s with
  | some r =>
    match consumeColonSpaceStar r with
    | c :: _ => isDigit19 c
    | [] => false
  | none => false

/-- Pattern `[Dd]eaths?[:\s]*([1-9]\d*)` at this position. -/
def matchDeathsNZAt (s : Str) : Bool :=
  match consumeDeathsLabel s with
  | some r =>
    match consumeColonSpaceStar r with
    | c :: _ => isDigit19 c
    | [] => false
  | none => false

/-- Existence search for a Bool position matcher. -/
def searchPos (m : Str → Bool) (s : Str) : Bool :=
  m s ||
    match s with
    | [] => false
    | _ :: t => searchPos m t

/-- The numeric half `\d{1,3}(?:\s?\d{3})*` of the space-separated
experience pair pattern (line 224). -/
def mNumSp : Matcher :=
  mSeq mD13 (mStarGE1 (mSeq (mOpt (mCharOf isSpaceC)) mD3))

/-- The numeric half `\d{1,3}(?:,\d{3})*` of the comma-separated
experience pair pattern (line 225). -/
def mNumComma : Matcher :=
  mSeq mD13 (mStarGE1 (mSeq (mLit [',']) mD3))

/-- Pattern `(\d{1,3}(?:\s?\d{3})*)\s*/\s*(\d{1,3}(?:\s?\d{3})*)`: the
current/max experience pattern with space separators, capturing both
sides. -/
def cExpPairSp : CMatcher (Str × Str) :=
  cThen (cCap mNumSp) (fun g1 =>
    cThen (cOfM (mStarOf isSpaceC)) (fun _ =>
      cThen (cOfM (mLit ['/'])) (fun _ =>
        cThen (cOfM (mStarOf isSpaceC)) (fun _ =>
          cMap (fun g2 => (g1, g2)) (cCap mNumSp)))))

/-- The comma-separated experience pair pattern (line 225). -/
def cExpPairComma : CMatcher (Str × Str) :=
  cThen (cCap mNumComma) (fun g1 =>
    cThen (cOfM (mStarOf isSpaceC)) (fun _ =>
      cThen (cOfM (mLit ['/'])) (fun _ =>
        cThen (cOfM (mStarOf isSpaceC)) (fun _ =>
          cMap (fun g2 => (g1, g2)) (cCap mNumComma)))))

/-- Pattern `(\d+)\s*/\s*(\d+)`: the simple experience pair pattern (line 226). -/
def cExpPairSimple : CMatcher (Str × Str) :=
  cThen (cCap (mPlusOf isDigitC)) (fun g1 =>
    cThen (cOfM (mStarOf isSpaceC)) (fun _ =>
      cThen (cOfM (mLit ['/'])) (fun _ =>
        cThen (cOfM (mStarOf isSpaceC)) (fun _ =>
          cMap (fun g2 => (g1, g2)) (cCap (mPlusOf isDigitC))))))

/-- The twelve rank words of the fourth meaningful-data pattern
(line 151), searched case-insensitively as plain substrings. -/
def meaningfulRankWords : List Str :=
  ["Private".toList, "Gefreiter".toList, "Corporal".toList, "Sergeant".toList,
   "Lieutenant".toList, "Captain".toList, "Major".toList, "Colonel".toList,
   "General".toList, "Marshal".toList, "Commander".toList, "Legend".toList]

/-- Lines 145-170: the four meaningful-data patterns, tried in order; a
matching experience pair only counts when its first group, stripped of
separators, differs from the default `14`. -/
def hasMeaningfulData (html : Str) : Bool :=
  searchPos matchKillsNZAt html ||
  searchPos matchDeathsNZAt html ||
  (match searchC cExpPairSp html with
   | some (g1, _) => stripCommaSpace g1 ≠ ['1', '4']
   | none => false) ||
  meaningfulRankWords.any (fun w => containsSubCI html w)

/-! ### Default/template-data indicators (lines 129-142) -/

/-- Match `lit` then `\s*` then `z` at the current position, returning the
rest.  Exact because the first character of each `z` used (`0`, `0.00`,
`Unknown`) is not whitespace. -/
def matchLitWsLit (lit z : Str) (s : Str) : Option Str :=
  if lit.isPrefixOf s then
    let r := consumeSpaceStar (s.drop lit.length)
    if z.isPrefixOf r then some (r.drop z.length) else none
  else none

/-- Leftmost occurrence of the plain substring `lit`, returning the rest
after it. -/
def searchLitRest (lit : Str) (s : Str) : Option Str :=
  searchRest (fun s' => if lit.isPrefixOf s' then some (s'.drop lit.length) else none) s

/-- Pattern `Kills:\s*0.*Deaths:\s*0.*K/D:\s*0\.00` under `re.DOTALL`
(line 133), as an existence check: each `.*` lets the next literal block
be searched anywhere in the remainder. -/
def defaultCombatStats (html : Str) : Bool :=
  match searchRest (matchLitWsLit "Kills:".toList ['0']) html with
  | some r1 =>
    (match searchRest (matchLitWsLit "Deaths:".toList ['0']) r1 with
     | some r2 => (searchRest (matchLitWsLit "K/D:".toList "0.00".toList) r2).isSome
     | none => false)
  | none => false

/-- The four template-data indicators of lines 130-137: the literal
default fraction, the all-zero combat block, the default group label, and
`Recruit` followed (anywhere, `re.DOTALL`) by the default fraction. -/
def defaultDataIndicators (html : Str) : Bool :=
  containsSub html "14/400".toList ||
  defaultCombatStats html ||
  (searchRest (matchLitWsLit "Group:".toList "Unknown".toList) html).isSome ||
  (match searchLitRest "Recruit".toList html with
   | some r => containsSub r "14/400".toList
   | none => false)

/-! ### Error-page indicators (lines 102-116) -/

/-- UTF-8 bytes of a code point (for percent-encoding). -/
def utf8Bytes (c : Char) : List Nat :=
  let n := c.toNat
  if n < 0x80 then [n]
  else if n < 0x800 then [0xC0 + n / 64, 0x80 + n % 64]
  else if n < 0x10000 then [0xE0 + n / 4096, 0x80 + (n / 64) % 64, 0x80 + n % 64]
  else [0xF0 + n / 262144, 0x80 + (n / 4096) % 64, 0x80 + (n / 64) % 64, 0x80 + n % 64]

/-- Upper-case hex digit. -/
def hexDigit (n : Nat) : Char :=
  if n < 10 then Char.ofNat (48 + n) else Char.ofNat (55 + n)

/-- Python `urllib.parse.quote` with its default safe set (`/` kept). -/
def pyQuote (s : Str) : Str :=
  s.flatMap (fun c =>
    if isAlnum c || c = '_' || c = '.' || c = '-' || c = '~' || c = '/' then [c]
    else (utf8Bytes c).flatMap (fun b => ['%', hexDigit (b / 16), hexDigit (b % 16)]))

/-- The `self.base_url` value from scraper.py line 19. -/
def baseUrl : Str := "https://ratings.ranked-rtanks.online".toList

/-- The document model: the raw text every regex runs over, plus the
results of the five `BeautifulSoup` structural queries the code makes
(lines 122-126 and 108: element lookups by class/id/visible text) and the
stripped text contents of the document's `<span>` elements (lines 190 and
206), which the activity parser inspects. -/
structure Document where
  html : Str
  /-- Texts `get_text(strip=True)` of the spans styled `display:none`, in
  document order (line 190). -/
  hiddenSpanTexts : List Str
  /-- Texts `get_text(strip=True)` of all spans, in document order (line 206). -/
  allSpanTexts : List Str
  /-- Whether `soup.find(class_=re.compile(r'profile|user-info|player-card', I))`
  found something (line 122). -/
  hasProfileClassAttr : Bool
  /-- Whether `soup.find(id=re.compile(r'profile|user|player', I))` found
  something (line 123). -/
  hasProfileId : Bool
  /-- Whether `soup.find(text=re.compile(r'Activity|...', I))` found something
  (line 125). -/
  hasActivityText : Bool
  /-- Whether `soup.find(text=re.compile(r'Combat Stats|...', I))` found
  something (line 126). -/
  hasCombatText : Bool
  /-- Whether `soup.find(text=re.compile(r'404|not found|error', I))` found
  something (line 108). -/
  hasErrorText : Bool

/-- The error-page indicators of lines 102-111.  The fifth indicator
(the mis-encoded Russian "user not found" literal, line 107) can never
hold: the literal contains the capitals Ç and Ω, which `lowerS` (like
Python's `html.lower()`) can never produce.  The last indicator is the
source's literal comparison of `f'{base_url}/'` with
`f'{base_url}/user/{quote(username)}'`. -/
def errorIndicators (doc : Document) (username : Str) : Bool :=
  containsSub (lowerS doc.html) "player not found".toList ||
  containsSub (lowerS doc.html) "user not found".toList ||
  (containsSub (lowerS doc.html) "not found".toList && doc.html.length < 5000) ||
  (containsSub doc.html "404".toList && containsSub (lowerS doc.html) "error".toList) ||
  containsSub (lowerS doc.html) ruUserNotFound ||
  (doc.hasErrorText && doc.html.length < 3000) ||
  (baseUrl ++ "/".toList == baseUrl ++ "/user/".toList ++ pyQuote username)

/-- The profile-structure indicators of lines 120-127.  The source builds
this list and then never tests it: no branch of `_parse_player_data`
consults `profile_structure_indicators`. -/
def profileStructureIndicators (doc : Document) : Bool :=
  doc.hasProfileClassAttr || doc.hasProfileId || doc.hasActivityText || doc.hasCombatText

/-! ### Activity status (lines 188-219) -/

/-- First span text equal (stripped, lowered) to `yes` or `no`; the
source breaks at the first such span. -/
def findYesNo : List Str → Option Bool
  | [] => none
  | t :: rest =>
    if lowerS t = "yes".toList then some true
    else if lowerS t = "no".toList then some false
    else findYesNo rest

/-- Lines 190-217: scan the hidden spans for a yes/no text; if no hidden
span carries one, fall back to all spans; default offline. -/
def parseOnline (doc : Document) : Bool :=
  match findYesNo doc.hiddenSpanTexts with
  | some b => b
  | none => (findYesNo doc.allSpanTexts).getD false

/-! ### Experience (lines 222-259) -/

/-- Try the three current/max pair patterns in order (lines 223-243); a
match whose groups fail `int()` raises `ValueError`, which the source
catches and turns into `continue` (next pattern). -/
def expPairResult (html : Str) : Option (Nat × Nat) :=
  expPairGo [cExpPairSp, cExpPairComma, cExpPairSimple] html
where
  expPairGo : List (CMatcher (Str × Str)) → Str → Option (Nat × Nat)
    | [], _ => none
    | m :: rest, html =>
      match searchC m html with
      | some (g1, g2) =>
        match pyIntOfStr (stripCommaSpace g1), pyIntOfStr (stripCommaSpace g2) with
        | some a, some b => some (a, b)
        | _, _ => expPairGo rest html
      | none => expPairGo rest html

/-- The captured group `(\d{1,3}(?:,?\d{3})*)` of the single-experience
patterns (lines 248-250). -/
def mNumCommaOpt : Matcher :=
  mSeq mD13 (mStarGE1 (mSeq (mOpt (mLit [','])) mD3))

/-- Patterns `Experience[^0-9]*(...)`, `Опыт[^0-9]*(...)` (mis-encoded) and
`"experience"[^0-9]*(...)`, case-insensitively, capturing the number. -/
def cSingleExp (label : Str) : CMatcher Str :=
  cThen (cOfM (mLitCI label)) (fun _ =>
    cThen (cOfM (mStarOf (fun c => !isDigitC c))) (fun _ =>
      cCap mNumCommaOpt))

/-- Lines 246-259: single labeled experience value; its `int()` is not
guarded, but the captured group is digits and commas only, so conversion
always succeeds. -/
def singleExpOpt (html : Str) : Option Nat :=
  match searchC (cSingleExp "Experience".toList) html with
  | some g => pyIntOfStr (stripCommaSpace g)
  | none =>
    match searchC (cSingleExp ruExperience) html with
    | some g => pyIntOfStr (stripCommaSpace g)
    | none =>
      match searchC (cSingleExp ('"' :: "experience\"".toList)) html with
      | some g => pyIntOfStr (stripCommaSpace g)
      | none => some 0

/-- Experience as `_parse_player_data` leaves it: current value plus the
optional max (the `max_experience` key is only ever set by the pair
branch). -/
def parseExperience (html : Str) : Option (Nat × Option Nat) :=
  match expPairResult html with
  | some (a, b) => some (a, some b)
  | none => (singleExpOpt html).map (fun e => (e, none))

/-! ### Rank (lines 261-350) -/

/-- The Russian→English rank translation table of lines 304-338, keyed by
the exact (mis-encoded) matched text. -/
def rankMap : List (Str × Str) :=
  [(ruLegend, "Legend".toList),
   (ruGeneralissimo, "Generalissimo".toList),
   (ruBrigadierCommander, "Brigadier Commander".toList),
   (ruColonelCommander, "Colonel Commander".toList),
   (ruLieutenantColonelCommander, "Lieutenant Colonel Commander".toList),
   (ruMajorCommander, "Major Commander".toList),
   (ruCaptainCommander, "Captain Commander".toList),
   (ruLieutenantCommander, "Lieutenant Commander".toList),
   (ruCommander, "Commander".toList),
   (ruFieldMarshal, "Field Marshal".toList),
   (ruMarshal, "Marshal".toList),
   (ruGeneral, "General".toList),
   (ruLieutenantGeneral, "Lieutenant General".toList),
   (ruMajorGeneral, "Major General".toList),
   (ruBrigadier, "Brigadier".toList),
   (ruColonel, "Colonel".toList),
   (ruLieutenantColonel, "Lieutenant Colonel".toList),
   (ruMajor, "Major".toList),
   (ruCaptain, "Captain".toList),
   (ruFirstLieutenant, "First Lieutenant".toList),
   (ruSecondLieutenant, "Second Lieutenant".toList),
   (ruMasterWarrantOfficer, "Master Warrant Officer".toList),
   (ruWarrantOfficer, "Warrant Officer".toList),
   (ruSergeantMajor, "Sergeant Major".toList),
   (ruFirstSergeant, "First Sergeant".toList),
   (ruMasterSergeant, "Master Sergeant".toList),
   (ruStaffSergeant, "Staff Sergeant".toList),
   (ruSergeant, "Sergeant".toList),
   (ruMasterCorporal, "Master Corporal".toList),
   (ruCorporal, "Corporal".toList),
   (ruGefreiter, "Gefreiter".toList),
   (ruPrivate, "Private".toList),
   (ruRecruit, "Recruit".toList)]

/-- Lookup `rank_mapping.get(rank_text, rank_text)` (line 340): exact dictionary
lookup on the matched text, defaulting to the text itself. -/
def rankMapGet (txt : Str) : Str :=
  ((rankMap.find? (fun p => p.1 == txt)).map Prod.snd).getD txt

/-- Match the alternation `(ru|en)` at this position under
`re.IGNORECASE`, returning the text actually matched (with the
document's casing, as `group(1)` does) and the rest. -/
def matchAltAt (ru en : Str) (s : Str) : Option (Str × Str) :=
  if isPrefixOfCI ru s then some (s.take ru.length, s.drop ru.length)
  else if isPrefixOfCI en s then some (s.take en.length, s.drop en.length)
  else none

/-- Leftmost search for the alternation. -/
def searchAlt (ru en : Str) (s : Str) : Option (Str × Str) :=
  searchDet (matchAltAt ru en) s

/-- The rank pattern list of lines 263-296, minus the Legend pattern
(which carries an extra capture group and is handled first). -/
def rankAlternations : List (Str × Str) :=
  [(ruGeneralissimo, "Generalissimo".toList),
   (ruBrigadierCommander, "Brigadier Commander".toList),
   (ruColonelCommander, "Colonel Commander".toList),
   (ruLieutenantColonelCommander, "Lieutenant Colonel Commander".toList),
   (ruMajorCommander, "Major Commander".toList),
   (ruCaptainCommander, "Captain Commander".toList),
   (ruLieutenantCommander, "Lieutenant Commander".toList),
   (ruCommander, "Commander".toList),
   (ruFieldMarshal, "Field Marshal".toList),
   (ruMarshal, "Marshal".toList),
   (ruGeneral, "General".toList),
   (ruLieutenantGeneral, "Lieutenant General".toList),
   (ruMajorGeneral, "Major General".toList),
   (ruBrigadier, "Brigadier".toList),
   (ruColonel, "Colonel".toList),
   (ruLieutenantColonel, "Lieutenant Colonel".toList),
   (ruMajor, "Major".toList),
   (ruCaptain, "Captain".toList),
   (ruFirstLieutenant, "First Lieutenant".toList),
   (ruSecondLieutenant, "Second Lieutenant".toList),
   (ruMasterWarrantOfficer, "Master Warrant Officer".toList),
   (ruWarrantOfficer, "Warrant Officer".toList),
   (ruSergeantMajor, "Sergeant Major".toList),
   (ruFirstSergeant, "First Sergeant".toList),
   (ruMasterSergeant, "Master Sergeant".toList),
   (ruStaffSergeant, "Staff Sergeant".toList),
   (ruSergeant, "Sergeant".toList),
   (ruMasterCorporal, "Master Corporal".toList),
   (ruCorporal, "Corporal".toList),
   (ruGefreiter, "Gefreiter".toList),
   (ruPrivate, "Private".toList),
   (ruRecruit, "Recruit".toList)]

/-- Pattern `(Легенда|Legend)\s*(\d*)` (line 263): the alternation, then maximal
whitespace, then a possibly empty run of digits as the second group.
Greedy is exact: `\s*` and `\d*` can both be empty and their character
classes are disjoint. -/
def searchLegend (html : Str) : Option (Str × Str) :=
  match searchAlt ruLegend "Legend".toList html with
  | some (txt, rest) => some (txt, (rest.dropWhile isSpaceC).takeWhile isDigitC)
  | none => none

/-- Walk the remaining rank patterns in order (first match wins). -/
def rankPatternsGo : List (Str × Str) → Str → Option Str
  | [], _ => none
  | (ru, en) :: rest, html =>
    match searchAlt ru en html with
    | some (txt, _) => some (rankMapGet txt)
    | none => rankPatternsGo rest html

/-- Lines 298-350: the matched rank, translated through `rank_mapping`,
with the Legend level (when its second group is nonempty) overriding the
result as `Legend {level}`.  `none` means no rank pattern matched. -/
def rankSearch (html : Str) : Option Str :=
  match searchLegend html with
  | some (txt, num) =>
    some (if num ≠ [] then "Legend ".toList ++ num else rankMapGet txt)
  | none => rankPatternsGo rankAlternations html

/-- The Legend level computed at line 360:
`max(1, (experience - 1600000) // 200000)`. -/
def legendLevel (experience : Nat) : Nat :=
  max 1 ((experience - 1600000) / 200000)

/-- The experience-threshold chain of lines 358-421, used when no rank
pattern matched and experience is positive. -/
def rankFromExperience (experience : Nat) : Str :=
  if experience ≥ 1800000 then "Legend ".toList ++ natDigits (legendLevel experience)
  else if experience ≥ 1600000 then "Generalissimo".toList
  else if experience ≥ 1400000 then "Commander".toList
  else if experience ≥ 1255000 then "Field Marshal".toList
  else if experience ≥ 1122000 then "Marshal".toList
  else if experience ≥ 1000000 then "General".toList
  else if experience ≥ 889000 then "Lieutenant General".toList
  else if experience ≥ 787000 then "Major General".toList
  else if experience ≥ 695000 then "Brigadier".toList
  else if experience ≥ 606000 then "Colonel".toList
  else if experience ≥ 527000 then "Lieutenant Colonel".toList
  else if experience ≥ 455000 then "Major".toList
  else if experience ≥ 390000 then "Captain".toList
  else if experience ≥ 332000 then "First Lieutenant".toList
  else if experience ≥ 280000 then "Second Lieutenant".toList
  else if experience ≥ 233000 then "Third Lieutenant".toList
  else if experience ≥ 192000 then "Warrant Officer 5".toList
  else if experience ≥ 156000 then "Warrant Officer 4".toList
  else if experience ≥ 125000 then "Warrant Officer 3".toList
  else if experience ≥ 98000 then "Warrant Officer 2".toList
  else if experience ≥ 76000 then "Warrant Officer 1".toList
  else if experience ≥ 57000 then "Sergeant Major".toList
  else if experience ≥ 41000 then "First Sergeant".toList
  else if experience ≥ 29000 then "Master Sergeant".toList
  else if experience ≥ 20000 then "Staff Sergeant".toList
  else if experience ≥ 12300 then "Sergeant".toList
  else if experience ≥ 7700 then "Master Corporal".toList
  else if experience ≥ 4400 then "Corporal".toList
  else if experience ≥ 2200 then "Gefreiter".toList
  else if experience ≥ 1000 then "Private".toList
  else "Recruit".toList

/-! ### Gold boxes, premium, group (lines 460-498) -/

/-- Pattern `[Gg]old[^0-9]*[Bb]oxes?[:\s]*(\d+)` and its Russian / quoted-key
variants, via the backtracking combinators (the `[^0-9]*` run here does
need backtracking to stop at the right place). -/
def cGoldEn : CMatcher Str :=
  cThen (cOfM (mLitCI "gold".toList)) (fun _ =>
    cThen (cOfM (mStarOf (fun c => !isDigitC c))) (fun _ =>
      cThen (cOfM (mSeq (mLitCI "boxe".toList) (mOpt (mLitCI ['s'])))) (fun _ =>
        cThen (cOfM (mStarOf isColonSpace)) (fun _ =>
          cCap (mPlusOf isDigitC)))))

/-- The Russian gold-box pattern of line 463. -/
def cGoldRu : CMatcher Str :=
  cThen (cOfM (mLitCI ruGold1)) (fun _ =>
    cThen (cOfM (mStarOf (fun c => !isDigitC c))) (fun _ =>
      cThen (cOfM (mLitCI ruGold2)) (fun _ =>
        cThen (cOfM (mStarOf isColonSpace)) (fun _ =>
          cCap (mPlusOf isDigitC)))))

/-- Pattern `"gold_boxes"[:\s]*(\d+)` (line 464). -/
def cGoldQuoted : CMatcher Str :=
  cThen (cOfM (mLitCI ('"' :: "gold_boxes\"".toList))) (fun _ =>
    cThen (cOfM (mStarOf isColonSpace)) (fun _ =>
      cCap (mPlusOf isDigitC)))

/-- Lines 460-472: first matching gold pattern; the captured group is
pure digits so `int()` cannot fail. -/
def goldParse (html : Str) : Nat :=
  match searchC cGoldEn html with
  | some g => natOfDigits g
  | none =>
    match searchC cGoldRu html with
    | some g => natOfDigits g
    | none =>
      match searchC cGoldQuoted html with
      | some g => natOfDigits g
      | none => 0

/-- Lines 474-481: premium iff any of three substrings occurs in the
lowered document. -/
def premiumCheck (html : Str) : Bool :=
  containsSub (lowerS html) "premium".toList ||
  containsSub (lowerS html) ruPremium ||
  containsSub (lowerS html) ('"' :: "premium\": true".toList)

/-- Pattern `label[:\s]*([^<\n\r]+)` for the group/clan labels. -/
def cGroupPat (label : Str) : CMatcher Str :=
  cThen (cOfM (mLitCI label)) (fun _ =>
    cThen (cOfM (mStarOf isColonSpace)) (fun _ =>
      cCap (mPlusOf (fun c => !(c = '<' || c = '\n' || c = '\r')))))

/-- Pattern `"group"[:\s]*"([^"]+)"` (line 488). -/
def cGroupQuoted : CMatcher Str :=
  cThen (cOfM (mLitCI ('"' :: "group\"".toList))) (fun _ =>
    cThen (cOfM (mStarOf isColonSpace)) (fun _ =>
      cThen (cOfM (mLit ['"'])) (fun _ =>
        cThen (cCap (mPlusOf (fun c => !(c = '"')))) (fun g =>
          cMap (fun _ => g) (cOfM (mLit ['"']))))))

/-- Lines 483-498: try each group pattern in order; a matched value is
stripped and rejected (moving on to the next pattern) when empty or a
case-insensitive sentinel. -/
def groupParseGo : List (CMatcher Str) → Str → Str
  | [], _ => "Unknown".toList
  | m :: rest, html =>
    match searchC m html with
    | some g =>
      let gs := pyStrip g
      if gs ≠ [] &&
          !(lowerS gs = "unknown".toList || lowerS gs = "none".toList ||
            lowerS gs = "null".toList) then gs
      else groupParseGo rest html
    | none => groupParseGo rest html

/-- The group/clan field (default `Unknown`). -/
def groupParse (html : Str) : Str :=
  groupParseGo
    [cGroupPat "group".toList, cGroupPat "clan".toList, cGroupPat ruGroup,
     cGroupQuoted] html

/-! ### Equipment (lines 500-549) -/

/-- Pattern `{name}[^a-zA-Z0-9]*M(\d+)` at this position (line 508),
deterministically: the `[^a-zA-Z0-9]*` run must stop exactly at the first
alphanumeric character, which then has to be `M`/`m`; characters given
back by backtracking are non-alphanumeric and can never match `M` or a
digit. -/
def matchEquipM (name : Str) (s : Str) : Option (Str × Str) :=
  if isPrefixOfCI name s then
    match (s.drop name.length).dropWhile (fun c => !isAlnum c) with
    | c :: r2 =>
      if eqCI c 'm' then
        let d := r2.takeWhile isDigitC
        if d ≠ [] then some (d, r2.drop d.length) else none
      else none
    | [] => none
  else none

/-- Pattern `{name}[^a-zA-Z0-9]*(\d+)` at this position (line 509), by the same
determinism argument. -/
def matchEquipD (name : Str) (s : Str) : Option (Str × Str) :=
  if isPrefixOfCI name s then
    let r := (s.drop name.length).dropWhile (fun c => !isAlnum c)
    let d := r.takeWhile isDigitC
    if d ≠ [] then some (d, r.drop d.length) else none
  else none

/-- Pattern `{name}` alone (line 510); with no capture group, `re.findall`
returns the full matched text, with the document's casing. -/
def matchEquipName (name : Str) (s : Str) : Option (Str × Str) :=
  if isPrefixOfCI name s then some (s.take name.length, s.drop name.length) else none

/-- The per-match processing of lines 515-521 (identical for hulls at
537-543): `match.isdigit()` appends a tier, an empty string appends the
bare name, any other nonempty string is also glued on after `M`.
`re.findall` never yields anything but `str` here, so the
`isinstance` guards are always true. -/
def processEquip (name m : Str) : Str :=
  if pyIsDigit m then name ++ (' ' :: 'M' :: m)
  else if m = [] then name
  else name ++ (' ' :: 'M' :: m)

/-- Lines 505-523 for a single name: the three pattern forms in order,
stopping at the first that yields any match. -/
def equipOne (name : Str) (html : Str) : List Str :=
  let p1 := findallDet (matchEquipM name) html
  if p1 ≠ [] then p1.map (processEquip name)
  else
    let p2 := findallDet (matchEquipD name) html
    if p2 ≠ [] then p2.map (processEquip name)
    else (findallDet (matchEquipName name) html).map (processEquip name)

/-- All names of one list, concatenated in list order, then deduplicated
keeping first occurrences (lines 548-549). -/
def equipFind (names : List Str) (html : Str) : List Str :=
  dedupFirst (names.flatMap (fun n => equipOne n html))

/-! ### K/D ratio (scraper.py lines 454-458; duplicated as
`calculate_kd_ratio` in utils.py lines 90-94) -/

/-- Two-digit zero-padding for the fractional part. -/
def pad2 (n : Nat) : Str := if n < 10 then '0' :: natDigits n else natDigits n

/-- Format `f"{kills/deaths:.2f}"`, modelled as round-half-even of the exact
rational `kills/deaths` to two decimals.  (CPython formats the nearest
binary double; on values where the double rounds the third decimal across
the .5 boundary the last digit can differ from exact rounding.  The
properties proved below — the case split and the two-decimal shape — do
not depend on that digit.) -/
def roundHalfEven (num den : Nat) : Nat :=
  let q := num / den
  let r := num % den
  if 2 * r < den then q
  else if den < 2 * r then q + 1
  else if q % 2 = 0 then q else q + 1

/-- The scaled quotient `kills/deaths` rounded to hundredths, then
rendered with a dot and two fractional digits. -/
def formatTwoDec (kills deaths : Nat) : Str :=
  natDigits (roundHalfEven (100 * kills) deaths / 100) ++
    ('.' :: pad2 (roundHalfEven (100 * kills) deaths % 100))

/-- The K/D derivation: `str(kills)` when deaths are zero and kills
positive, `"0.00"` when both are zero, two-decimal quotient otherwise. -/
def kdRatioOf (kills deaths : Nat) : Str :=
  if deaths = 0 then (if kills > 0 then natDigits kills else "0.00".toList)
  else formatTwoDec kills deaths

/-! ### Rank-to-symbol index (utils.py lines 26-71) -/

/-- Normalization `rank_name.lower().replace(' ', '_')` (line 32). -/
def underscoreLower (s : Str) : Str :=
  (lowerS s).map (fun c => if c = ' ' then '_' else c)

/-- The `rank_mapping` of utils.py lines 35-68: normalized rank name →
symbolic index. -/
def rankIndexTable : List (Str × Nat) :=
  [("recruit".toList, 1), ("private".toList, 2), ("gefreiter".toList, 3),
   ("corporal".toList, 4), ("master_corporal".toList, 5), ("sergeant".toList, 6),
   ("staff_sergeant".toList, 7), ("master_sergeant".toList, 8),
   ("first_sergeant".toList, 9), ("sergeant_major".toList, 10),
   ("warrant_officer_1".toList, 11), ("warrant_officer_2".toList, 12),
   ("warrant_officer_3".toList, 13), ("warrant_officer_4".toList, 14),
   ("warrant_officer_5".toList, 15), ("third_lieutenant".toList, 16),
   ("second_lieutenant".toList, 17), ("first_lieutenant".toList, 18),
   ("captain".toList, 19), ("major".toList, 20), ("lieutenant_colonel".toList, 21),
   ("colonel".toList, 22), ("brigadier".toList, 23), ("major_general".toList, 24),
   ("lieutenant_general".toList, 25), ("general".toList, 26), ("marshal".toList, 27),
   ("field_marshal".toList, 28), ("commander".toList, 29),
   ("generalissimo".toList, 30), ("legend".toList, 31), ("legend_premium".toList, 31)]

/-- The index computation of `get_rank_emoji` (utils.py lines 26-71):
names starting with `Legend` map straight to 31; otherwise the lowered,
underscored name is looked up, defaulting to 31. -/
def rankEmojiIndex (rank_name : Str) : Nat :=
  if "Legend".toList.isPrefixOf rank_name then 31
  else
    ((rankIndexTable.find? (fun p => p.1 == underscoreLower rank_name)).map
      Prod.snd).getD 31

/-! ### The record and the parser -/

/-- The `player_data` dictionary built at lines 173-186 (the `equipment`
sub-dictionary is flattened into the two lists; the `kd_ratio` key is the
`kdRatioVal` field). -/
structure PlayerRecord where
  username : Str
  rank : Str
  experience : Nat
  max_experience : Option Nat
  kills : Nat
  deaths : Nat
  kdRatioVal : Str
  gold_boxes : Nat
  premium : Bool
  group : Str
  is_online : Bool
  status_indicator : Str
  turrets : List Str
  hulls : List Str
deriving DecidableEq, Repr

/-- The record construction of lines 172-552, given the values whose
conversions can raise. -/
def buildRecord (turretNames hullNames : List Str) (doc : Document)
    (username : Str) (exp : Nat) (maxExp : Option Nat) (kills deaths : Nat) :
    PlayerRecord :=
  let online := parseOnline doc
  { username := username
    rank :=
      match rankSearch doc.html with
      | some r => r
      | none =>
        if exp > 0 then rankFromExperience exp else "Unknown".toList
    experience := exp
    max_experience := maxExp
    kills := kills
    deaths := deaths
    kdRatioVal := kdRatioOf kills deaths
    gold_boxes := goldParse doc.html
    premium := premiumCheck doc.html
    group := groupParse doc.html
    is_online := online
    status_indicator := if online then greenCircle else redCircle
    turrets := equipFind turretNames doc.html
    hulls := equipFind hullNames doc.html }

/-- The `_parse_player_data` function (scraper.py lines 94-556).  `none` models every
`return None` path: the error-page indicators, the template-data
indicators, the missing-meaningful-data check, and the exception handler
that catches an unguarded `int()` failure in the kills/deaths (or, in
principle, experience) extraction.  The `profile_structure_indicators`
list built at lines 120-127 is never tested by the source, so it does not
appear here.  `turretNames`/`hullNames` are `TURRET_NAMES`/`HULL_NAMES`
from the absent `config` module. -/
def parsePlayerData (turretNames hullNames : List Str) (doc : Document)
    (username : Str) : Option PlayerRecord :=
  if errorIndicators doc username then none
  else if defaultDataIndicators doc.html then none
  else if !hasMeaningfulData doc.html then none
  else
    match parseExperience doc.html with
    | none => none
    | some (exp, maxExp) =>
      match killsOpt doc.html with
      | none => none
      | some kills =>
        match deathsOpt doc.html with
        | none => none
        | some deaths =>
          some (buildRecord turretNames hullNames doc username exp maxExp kills deaths)

/-! ## Infrastructure lemmas -/

theorem buildRecord_rank (T H : List Str) (doc : Document) (u : Str)
    (e : Nat) (m : Option Nat) (k d : Nat) :
    (buildRecord T H doc u e m k d).rank =
      (match rankSearch doc.html with
       | some r => r
       | none => if e > 0 then rankFromExperience e else "Unknown".toList) := rfl

theorem buildRecord_experience (T H : List Str) (doc : Document) (u : Str)
    (e : Nat) (m : Option Nat) (k d : Nat) :
    (buildRecord T H doc u e m k d).experience = e := rfl

theorem buildRecord_maxExperience (T H : List Str) (doc : Document) (u : Str)
    (e : Nat) (m : Option Nat) (k d : Nat) :
    (buildRecord T H doc u e m k d).max_experience = m := rfl

theorem buildRecord_kills (T H : List Str) (doc : Document) (u : Str)
    (e : Nat) (m : Option Nat) (k d : Nat) :
    (buildRecord T H doc u e m k d).kills = k := rfl

theorem buildRecord_deaths (T H : List Str) (doc : Document) (u : Str)
    (e : Nat) (m : Option Nat) (k d : Nat) :
    (buildRecord T H doc u e m k d).deaths = d := rfl

theorem buildRecord_kd (T H : List Str) (doc : Document) (u : Str)
    (e : Nat) (m : Option Nat) (k d : Nat) :
    (buildRecord T H doc u e m k d).kdRatioVal = kdRatioOf k d := rfl

/-- Any successful parse is the record built from the four extracted
numeric results. -/
theorem parse_some_elim (T H : List Str) (doc : Document) (u : Str)
    (r : PlayerRecord) (h : parsePlayerData T H doc u = some r) :
    ∃ exp maxExp kills deaths,
      parseExperience doc.html = some (exp, maxExp) ∧
      killsOpt doc.html = some kills ∧
      deathsOpt doc.html = some deaths ∧
      r = buildRecord T H doc u exp maxExp kills deaths := by
  unfold parsePlayerData at h
  split_ifs at h
  rcases hE : parseExperience doc.html with _ | ⟨exp, maxExp⟩ <;> rw [hE] at h
  · exact absurd h (by simp)
  rcases hK : killsOpt doc.html with _ | kills <;> rw [hK] at h
  · exact absurd h (by simp)
  rcases hD : deathsOpt doc.html with _ | deaths <;> rw [hD] at h
  · exact absurd h (by simp)
  exact ⟨exp, maxExp, kills, deaths, rfl, rfl, rfl, (Option.some.injEq _ _ ▸ h).symm⟩

/-! ### Digit-string lemmas -/

theorem natDigitsAux_fuel (f1 : Nat) : ∀ (f2 m : Nat), m < f1 → m < f2 →
    natDigitsAux f1 m = natDigitsAux f2 m := by
  induction f1 using Nat.strong_induction_on with
  | _ f1 ih =>
    intro f2 m h1 h2
    cases f1 with
    | zero => exact absurd h1 (by omega)
    | succ g1 =>
      cases f2 with
      | zero => exact absurd h2 (by omega)
      | succ g2 =>
        simp only [natDigitsAux]
        by_cases hm : m < 10
        · simp [hm]
        · have hd : m / 10 < m := Nat.div_lt_self (by omega) (by omega)
          rw [if_neg hm, if_neg hm,
            ih g1 (Nat.lt_succ_self g1) g2 (m / 10) (by omega) (by omega)]

theorem natDigits_lt10 (n : Nat) (h : n < 10) :
    natDigits n = [Char.ofNat (48 + n)] := by
  unfold natDigits
  simp only [natDigitsAux]
  simp [h]

theorem natDigits_ge10 (n : Nat) (h : ¬ n < 10) :
    natDigits n = natDigits (n / 10) ++ [Char.ofNat (48 + n % 10)] := by
  unfold natDigits
  conv_lhs => rw [natDigitsAux]
  rw [if_neg h]
  have hd : n / 10 < n := Nat.div_lt_self (by omega) (by omega)
  rw [natDigitsAux_fuel n (n / 10 + 1) (n / 10) (by omega) (by omega)]

theorem isDigitC_ofNat48 (n : Nat) (h : n < 10) :
    isDigitC (Char.ofNat (48 + n)) = true := by
  interval_cases n <;> decide

theorem natDigits_ne_nil (n : Nat) : natDigits n ≠ [] := by
  by_cases h : n < 10
  · rw [natDigits_lt10 n h]; simp
  · rw [natDigits_ge10 n h]; simp

theorem natDigits_all_digits (n : Nat) : (natDigits n).all isDigitC = true := by
  induction n using Nat.strong_induction_on with
  | _ n ih =>
    by_cases h : n < 10
    · rw [natDigits_lt10 n h]
      simp [isDigitC_ofNat48 n h]
    · rw [natDigits_ge10 n h]
      simp only [List.all_append, Bool.and_eq_true]
      exact ⟨ih (n / 10) (Nat.div_lt_self (by omega) (by omega)),
        by simp [isDigitC_ofNat48 (n % 10) (Nat.mod_lt _ (by omega))]⟩

/-! ### Character-class disjointness -/

theorem digit_not_space (c : Char) (h : isDigitC c = true) : isSpaceC c = false := by
  by_contra hc
  simp only [Bool.not_eq_false, isSpaceC, Bool.or_eq_true, decide_eq_true_eq] at hc
  rcases hc with ((((rfl | rfl) | rfl) | rfl) | rfl) | rfl <;> exact absurd h (by decide)

theorem digit_not_colonspace (c : Char) (h : isDigitC c = true) :
    isColonSpace c = false := by
  by_contra hc
  simp only [Bool.not_eq_false, isColonSpace, Bool.or_eq_true, decide_eq_true_eq] at hc
  rcases hc with rfl | hsp
  · exact absurd h (by decide)
  · exact absurd (digit_not_space c h) (by simp [hsp])

theorem digit_not_commaspace (c : Char) (h : isDigitC c = true) :
    (c = ',' || isSpaceC c) = false := by
  by_contra hc
  simp only [Bool.not_eq_false, Bool.or_eq_true, decide_eq_true_eq] at hc
  rcases hc with rfl | hsp
  · exact absurd h (by decide)
  · exact absurd (digit_not_space c h) (by simp [hsp])

theorem digit_keep_commaspace (c : Char) (h : isDigitC c = true) :
    (c ≠ ',' && c ≠ ' ') = true := by
  simp only [Bool.and_eq_true, ne_eq, decide_eq_true_eq]
  refine ⟨fun hcc => ?_, fun hcc => ?_⟩
  · subst hcc; exact absurd h (by decide)
  · subst hcc; exact absurd (digit_not_space _ h) (by decide)

/-! ### List scanning lemmas -/

theorem dropWhile_eq_self_of_none (p : Char → Bool) (l : Str)
    (h : ∀ c ∈ l, p c = false) : l.dropWhile p = l := by
  cases l with
  | nil => rfl
  | cons c t => simp [List.dropWhile_cons, h c (by simp)]

theorem dropWhile_append_of_all (p : Char → Bool) (a b : Str)
    (ha : a.all p = true) (hb : ∀ c l, b = c :: l → p c = false) :
    (a ++ b).dropWhile p = b := by
  induction a with
  | nil =>
    simp only [List.nil_append]
    cases b with
    | nil => rfl
    | cons c l => simp [List.dropWhile_cons, hb c l rfl]
  | cons x t ih =>
    simp only [List.all_cons, Bool.and_eq_true] at ha
    simp [List.cons_append, List.dropWhile_cons, ha.1, ih ha.2]

theorem takeWhile_append_of_all (p : Char → Bool) (a b : Str)
    (ha : a.all p = true) :
    (a ++ b).takeWhile p = a ++ b.takeWhile p := by
  induction a with
  | nil => simp
  | cons x t ih =>
    simp only [List.all_cons, Bool.and_eq_true] at ha
    simp [List.cons_append, List.takeWhile_cons, ha.1, ih ha.2]

theorem pyStrip_of_digits (l : Str) (h : l.all isDigitC = true) : pyStrip l = l := by
  have hns : ∀ c ∈ l, isSpaceC c = false := by
    intro c hc
    exact digit_not_space c (by simpa using List.all_eq_true.mp h c hc)
  unfold pyStrip
  rw [dropWhile_eq_self_of_none _ _ hns,
      dropWhile_eq_self_of_none _ _ (by intro c hc; exact hns c (List.mem_reverse.mp hc)),
      List.reverse_reverse]

theorem stripCommaSpace_of_digits (l : Str) (h : l.all isDigitC = true) :
    stripCommaSpace l = l := by
  unfold stripCommaSpace
  rw [List.filter_eq_self]
  intro c hc
  exact digit_keep_commaspace c (by simpa using List.all_eq_true.mp h c hc)

theorem pyIntOfStr_of_digits (l : Str) (hne : l ≠ []) (h : l.all isDigitC = true) :
    pyIntOfStr l = some (natOfDigits l) := by
  unfold pyIntOfStr
  rw [pyStrip_of_digits l h]
  simp [hne, h]

/-! ### Leftmost-search decomposition -/

theorem searchDet_append {α : Type} (m : Str → Option α) (a b : Str) (v : α)
    (h : ∀ i, i < a.length → m ((a ++ b).drop i) = none)
    (hb : m b = some v) : searchDet m (a ++ b) = some v := by
  induction a with
  | nil =>
    simp only [List.nil_append]
    cases b with
    | nil => simp [searchDet, hb]
    | cons c t => simp [searchDet, hb]
  | cons c t ih =>
    have h0 := h 0 (by simp)
    simp only [List.drop_zero, List.cons_append] at h0
    rw [List.cons_append, searchDet, h0]
    exact ih (fun i hi => by
      have := h (i + 1) (by simpa using Nat.succ_lt_succ hi)
      simpa using this)

/-! ### K/D shape lemmas -/

theorem pad2_pair (m : Nat) (h : m < 100) :
    ∃ d1 d2, pad2 m = [d1, d2] ∧ isDigitC d1 = true ∧ isDigitC d2 = true := by
  unfold pad2
  split_ifs with h10
  · exact ⟨'0', Char.ofNat (48 + m), by rw [natDigits_lt10 m h10], by decide,
      isDigitC_ofNat48 m h10⟩
  · rw [natDigits_ge10 m h10]
    have hq : m / 10 < 10 := by omega
    rw [natDigits_lt10 _ hq]
    exact ⟨_, _, rfl, isDigitC_ofNat48 _ hq,
      isDigitC_ofNat48 _ (Nat.mod_lt _ (by omega))⟩

theorem formatTwoDec_shape (k d : Nat) :
    ∃ ip d1 d2, formatTwoDec k d = ip ++ ('.' :: [d1, d2]) ∧ ip ≠ [] ∧
      ip.all isDigitC = true ∧ isDigitC d1 = true ∧ isDigitC d2 = true := by
  unfold formatTwoDec
  obtain ⟨d1, d2, hp, h1, h2⟩ :=
    pad2_pair (roundHalfEven (100 * k) d % 100) (Nat.mod_lt _ (by omega))
  rw [hp]
  exact ⟨natDigits (roundHalfEven (100 * k) d / 100), d1, d2, rfl,
    natDigits_ne_nil _, natDigits_all_digits _, h1, h2⟩

theorem kdRatioOf_deaths_zero_pos (k : Nat) (hk : 0 < k) :
    kdRatioOf k 0 = natDigits k := by
  simp [kdRatioOf, hk]

theorem kdRatioOf_zero_zero : kdRatioOf 0 0 = "0.00".toList := by
  simp [kdRatioOf]

theorem kdRatioOf_deaths_pos (k d : Nat) (hd : 0 < d) :
    kdRatioOf k d = formatTwoDec k d := by
  simp [kdRatioOf, Nat.pos_iff_ne_zero.mp hd]

/-! ### Seniority of derived ranks (for the monotonicity claim)

The threshold chain of `rankFromExperience` below the Legend band is an
instance of a generic descending-threshold table evaluator, which gives
clean induction principles. -/

/-- Evaluate a descending-threshold table: the value of the first entry
whose threshold is at or below `e`, else the default. -/
def chainEval {α : Type} (table : List (Nat × α)) (dflt : α) (e : Nat) : α :=
  match table with
  | [] => dflt
  | (t, v) :: rest => if e ≥ t then v else chainEval rest dflt e

/-- The non-Legend part of the threshold chain of scraper.py lines
362-421, as a table. -/
def rankChainTable : List (Nat × Str) :=
  [(1600000, "Generalissimo".toList), (1400000, "Commander".toList),
   (1255000, "Field Marshal".toList), (1122000, "Marshal".toList),
   (1000000, "General".toList), (889000, "Lieutenant General".toList),
   (787000, "Major General".toList), (695000, "Brigadier".toList),
   (606000, "Colonel".toList), (527000, "Lieutenant Colonel".toList),
   (455000, "Major".toList), (390000, "Captain".toList),
   (332000, "First Lieutenant".toList), (280000, "Second Lieutenant".toList),
   (233000, "Third Lieutenant".toList), (192000, "Warrant Officer 5".toList),
   (156000, "Warrant Officer 4".toList), (125000, "Warrant Officer 3".toList),
   (98000, "Warrant Officer 2".toList), (76000, "Warrant Officer 1".toList),
   (57000, "Sergeant Major".toList), (41000, "First Sergeant".toList),
   (29000, "Master Sergeant".toList), (20000, "Staff Sergeant".toList),
   (12300, "Sergeant".toList), (7700, "Master Corporal".toList),
   (4400, "Corporal".toList), (2200, "Gefreiter".toList),
   (1000, "Private".toList)]

theorem rankFromExperience_eq_chain (e : Nat) :
    rankFromExperience e =
      if e ≥ 1800000 then "Legend ".toList ++ natDigits (legendLevel e)
      else chainEval rankChainTable "Recruit".toList e := rfl

/-- An upper bound for a chain evaluation: every table value and the
default bounded by `v` bounds the result. -/
theorem chainEval_le (table : List (Nat × Nat)) (dflt : Nat) (e v : Nat)
    (h : ∀ p ∈ table, p.2 ≤ v) (hd : dflt ≤ v) :
    chainEval table dflt e ≤ v := by
  induction table with
  | nil => exact hd
  | cons p rest ih =>
    obtain ⟨t, w⟩ := p
    rw [chainEval]
    split_ifs
    · exact h (t, w) (by simp)
    · exact ih (fun q hq => h q (by simp [hq]))

/-- Monotonicity of a chain evaluation in `e`, for tables whose values
descend along the list and dominate the default. -/
theorem chainEval_mono (table : List (Nat × Nat)) (dflt : Nat)
    (hpw : List.Pairwise (fun a b => b.2 ≤ a.2) table)
    (hd : ∀ p ∈ table, dflt ≤ p.2) (e1 e2 : Nat) (h : e1 ≤ e2) :
    chainEval table dflt e1 ≤ chainEval table dflt e2 := by
  induction table with
  | nil => exact le_refl _
  | cons p rest ih =>
    obtain ⟨t, w⟩ := p
    rw [chainEval, chainEval]
    rcases List.pairwise_cons.mp hpw with ⟨hw, hrest⟩
    by_cases h2 : e2 ≥ t
    · rw [if_pos h2]
      by_cases h1 : e1 ≥ t
      · rw [if_pos h1]
      · rw [if_neg h1]
        exact chainEval_le rest dflt e1 w (fun q hq => hw q hq) (hd (t, w) (by simp))
    · rw [if_neg h2, if_neg (by omega : ¬ e1 ≥ t)]
      exact ih hrest (fun q hq => hd q (by simp [hq]))

/-- Mapping a function over the values of a table commutes with the chain
evaluation. -/
theorem chainEval_map {α β : Type} (f : α → β) (table : List (Nat × α))
    (dflt : α) (e : Nat) :
    f (chainEval table dflt e) =
      chainEval (table.map (fun p => (p.1, f p.2))) (f dflt) e := by
  induction table with
  | nil => rfl
  | cons p rest ih =>
    obtain ⟨t, v⟩ := p
    rw [List.map_cons, chainEval, chainEval]
    split_ifs
    · rfl
    · exact ih

/-- The tier index the derived rank lands on, arithmetically. -/
def idxOfExp (e : Nat) : Nat :=
  if e ≥ 1800000 then 31
  else chainEval (rankChainTable.map (fun p => (p.1, rankEmojiIndex p.2))) 1 e

theorem rankEmojiIndex_legend_append (s : Str) :
    rankEmojiIndex ("Legend ".toList ++ s) = 31 := by
  have hpre : "Legend".toList.isPrefixOf ("Legend ".toList ++ s) = true := by
    rw [List.isPrefixOf_iff_prefix]
    exact ⟨[' '] ++ s,
      by rw [← List.append_assoc, show "Legend".toList ++ [' '] = "Legend ".toList from by decide]⟩
  unfold rankEmojiIndex
  rw [hpre]
  simp

theorem rankEmojiIndex_rankFromExperience (e : Nat) :
    rankEmojiIndex (rankFromExperience e) = idxOfExp e := by
  rw [rankFromExperience_eq_chain]
  unfold idxOfExp
  split_ifs
  · exact rankEmojiIndex_legend_append _
  · rw [chainEval_map rankEmojiIndex rankChainTable "Recruit".toList e]
    rfl

theorem idxOfExp_mono (e1 e2 : Nat) (h : e1 ≤ e2) : idxOfExp e1 ≤ idxOfExp e2 := by
  unfold idxOfExp
  by_cases h2 : e2 ≥ 1800000
  · rw [if_pos h2]
    split_ifs
    · exact le_refl _
    · exact Nat.le_of_lt_succ (Nat.lt_succ_of_le
        (chainEval_le _ 1 e1 31 (by decide) (by decide)))
  · rw [if_neg h2, if_neg (by omega : ¬ e1 ≥ 1800000)]
    exact chainEval_mono _ 1 (by decide) (by decide) e1 e2 h

theorem idxOfExp_le_30 (e : Nat) (h : ¬ 1800000 ≤ e) : idxOfExp e ≤ 30 := by
  unfold idxOfExp
  rw [if_neg (by omega : ¬ e ≥ 1800000)]
  exact chainEval_le _ 1 e 30 (by decide) (by decide)

theorem idxOfExp_legend (e : Nat) (h : 1800000 ≤ e) : idxOfExp e = 31 := by
  unfold idxOfExp
  rw [if_pos h]

/-- Seniority order on `(tier index, Legend level)` pairs: strictly more
senior tier, or the same tier with at least the same Legend level. -/
def pairLE (a b : Nat × Nat) : Prop := a.1 < b.1 ∨ (a.1 = b.1 ∧ a.2 ≤ b.2)

/-- The Legend sub-level an experience value derives (zero below the
Legend band). -/
def legendLevelOfExp (e : Nat) : Nat :=
  if 1800000 ≤ e then legendLevel e else 0

/-- The seniority key of the rank derived from an experience value: the
`get_rank_emoji` tier index of the derived rank string, together with the
derived Legend level. -/
def rankSeniorityKey (e : Nat) : Nat × Nat :=
  (rankEmojiIndex (rankFromExperience e), legendLevelOfExp e)

/-- A chain evaluation skips a leading block of entries whose thresholds
all lie above `e`. -/
theorem chainEval_append_skip {α : Type} (a rest : List (Nat × α)) (dflt : α)
    (e : Nat) (h : ∀ p ∈ a, ¬ e ≥ p.1) :
    chainEval (a ++ rest) dflt e = chainEval rest dflt e := by
  induction a with
  | nil => rfl
  | cons p t ih =>
    rw [List.cons_append, chainEval, if_neg (h p (by simp))]
    exact ih (fun q hq => h q (by simp [hq]))

/-- C4 helper: the literal threshold chain sends the `[41000, 57000)`
band to `First Sergeant`. -/
theorem rankFromExperience_first_sergeant (e : Nat) (h1 : 41000 ≤ e)
    (h2 : e < 57000) : rankFromExperience e = "First Sergeant".toList := by
  have hfront : ∀ p ∈ rankChainTable.take 21, 57000 ≤ p.1 := by decide
  rw [rankFromExperience_eq_chain, if_neg (by omega),
    ← List.take_append_drop 21 rankChainTable,
    chainEval_append_skip _ _ _ e (fun p hp => by have := hfront p hp; omega),
    show rankChainTable.drop 21 =
      (41000, "First Sergeant".toList) :: rankChainTable.drop 22 from rfl,
    chainEval, if_pos (by omega : e ≥ 41000)]

/-! ### Computing the kills/deaths matcher on a decomposed position -/

theorem numGroupExt_of_head_digit (c : Char) (t : Str) (h : isDigitC c = true) :
    numGroupExt (c :: t) = ([], c :: t) := by
  rcases t with _ | ⟨d1, t1⟩
  · rfl
  rcases t1 with _ | ⟨d2, t2⟩
  · rfl
  rcases t2 with _ | ⟨d3, t3⟩
  · rfl
  rw [numGroupExt]
  rw [digit_not_commaspace c h]
  simp

theorem numGroupDet_four_digits (d1 d2 d3 d4 : Char) (rest : Str)
    (h1 : isDigitC d1 = true) (h2 : isDigitC d2 = true) (h3 : isDigitC d3 = true)
    (h4 : isDigitC d4 = true) :
    numGroupDet (d1 :: d2 :: d3 :: d4 :: rest) = some ([d1, d2, d3], d4 :: rest) := by
  have hext := numGroupExt_of_head_digit d4 rest h4
  simp [numGroupDet, h1, h2, h3, h4, hext, List.takeWhile_cons, List.take, List.drop]

/-- After the label, a run of `[:\s]` separators followed by at least four
digits captures exactly the first three digits. -/
theorem groupAfterSeps (sep : Str) (hsep : sep.all isColonSpace = true)
    (d1 d2 d3 d4 : Char) (rest : Str)
    (h1 : isDigitC d1 = true) (h2 : isDigitC d2 = true) (h3 : isDigitC d3 = true)
    (h4 : isDigitC d4 = true) :
    (numGroupDet (consumeColonSpaceStar
        (sep ++ (d1 :: d2 :: d3 :: d4 :: rest)))).map Prod.fst =
      some [d1, d2, d3] := by
  have hdrop : consumeColonSpaceStar (sep ++ (d1 :: d2 :: d3 :: d4 :: rest)) =
      d1 :: d2 :: d3 :: d4 :: rest := by
    unfold consumeColonSpaceStar
    exact dropWhile_append_of_all _ _ _ hsep
      (fun c l hcl => by cases hcl; exact digit_not_colonspace _ h1)
  rw [hdrop, numGroupDet_four_digits d1 d2 d3 d4 rest h1 h2 h3 h4]
  rfl

theorem killsOpt_of_search (html g : Str) (hs : searchKills html = some g)
    (hne : g ≠ []) (hdig : g.all isDigitC = true) :
    killsOpt html = some (natOfDigits g) := by
  unfold killsOpt
  rw [hs]
  show pyIntOfStr (stripCommaSpace g) = some (natOfDigits g)
  rw [stripCommaSpace_of_digits g hdig, pyIntOfStr_of_digits g hne hdig]

theorem deathsOpt_of_search (html g : Str) (hs : searchDeaths html = some g)
    (hne : g ≠ []) (hdig : g.all isDigitC = true) :
    deathsOpt html = some (natOfDigits g) := by
  unfold deathsOpt
  rw [hs]
  show pyIntOfStr (stripCommaSpace g) = some (natOfDigits g)
  rw [stripCommaSpace_of_digits g hdig, pyIntOfStr_of_digits g hne hdig]

/-! ## Concrete documents for witnesses and counterexamples -/

/-- A document none of whose structural soup queries succeed and with no
spans: just raw text. -/
def plainDoc (h : Str) : Document :=
  { html := h, hiddenSpanTexts := [], allSpanTexts := [],
    hasProfileClassAttr := false, hasProfileId := false, hasActivityText := false,
    hasCombatText := false, hasErrorText := false }

def docC1 : Document := plainDoc "14/400".toList

def docC2 : Document := plainDoc "Kills: 5".toList

def docC3 : Document := plainDoc "Kills: 200 Deaths: 50".toList

def recC3 : PlayerRecord :=
  buildRecord [] [] docC3 "user".toList 0 none 200 50

def docC4 : Document := plainDoc "41 500/57 000".toList

def recC4 : PlayerRecord :=
  buildRecord [] [] docC4 "user".toList 41500 (some 57000) 0 0

/-- A document carrying the experience value under the mis-encoded
Russian label of scraper.py line 249 (plus a positive kills signal). -/
def docC4ru : Document := plainDoc (ruExperience ++ " 50,000 Kills: 5".toList)

def recC4ru : PlayerRecord :=
  buildRecord [] [] docC4ru "user".toList 50000 none 5 0

def docC6 : Document := plainDoc "Kills: 7".toList

def recC6 : PlayerRecord :=
  buildRecord [] [] docC6 "user".toList 0 none 7 0

def docC7 : Document := plainDoc "500/400".toList

def recC7 : PlayerRecord :=
  buildRecord [] [] docC7 "user".toList 500 (some 400) 0 0

def docC8 : Document := plainDoc "Kills: 5 Freeze".toList

def docC10k : Document := plainDoc "Kills: 1234".toList

def recC10k : PlayerRecord :=
  buildRecord [] [] docC10k "user".toList 0 none 123 0

def docC10d : Document := plainDoc "Deaths: 9876".toList

def recC10d : PlayerRecord :=
  buildRecord [] [] docC10d "user".toList 0 none 0 987

/-! ## The claims -/

/-- C1: for every document matching any placeholder/template signature
(the default `14/400` fraction, the all-zero combat block with 0.00 ratio,
the `Group: Unknown` label, or `Recruit` together with the default
fraction), `_parse_player_data` classifies the document as not-found and
returns no record, regardless of any other signal present. -/
theorem c1_template_page_not_found (T H : List Str) (doc : Document) (u : Str)
    (h : defaultDataIndicators doc.html = true) :
    parsePlayerData T H doc u = none := by
  unfold parsePlayerData
  by_cases he : errorIndicators doc u
  · rw [if_pos he]
  · rw [if_neg he, if_pos h]

theorem c1_template_page_not_found_witness :
    defaultDataIndicators docC1.html = true ∧
      parsePlayerData [] [] docC1 "user".toList = none :=
  ⟨by decide, c1_template_page_not_found [] [] docC1 "user".toList (by decide)⟩

/-- C2 (code bug): the source builds `profile_structure_indicators`
(lines 120-127) but never tests the list, so a document with no
profile-structure element at all is NOT rejected: with positive data
(`Kills: 5`) it parses to a record instead of not-found. -/
theorem c2_structure_check_unenforced :
    profileStructureIndicators docC2 = false ∧
      (parsePlayerData [] [] docC2 "user".toList).isSome = true :=
  ⟨rfl, by decide⟩

/-- C3: the K/D ratio of every produced record is derived from the
extracted kills and deaths (never parsed from the document): `str(kills)`
when deaths = 0 < kills, `0.00` when both are zero, and otherwise a
two-decimal rendering of kills/deaths. -/
theorem c3_kd_ratio_derived (T H : List Str) (doc : Document) (u : Str)
    (r : PlayerRecord) (h : parsePlayerData T H doc u = some r) :
    r.kdRatioVal = kdRatioOf r.kills r.deaths ∧
    (r.deaths = 0 → 0 < r.kills → r.kdRatioVal = natDigits r.kills) ∧
    (r.kills = 0 → r.deaths = 0 → r.kdRatioVal = "0.00".toList) ∧
    (0 < r.deaths → ∃ ip d1 d2, r.kdRatioVal = ip ++ ('.' :: [d1, d2]) ∧
      ip ≠ [] ∧ ip.all isDigitC = true ∧ isDigitC d1 = true ∧
      isDigitC d2 = true) := by
  obtain ⟨exp, maxExp, kills, deaths, hE, hK, hD, hr⟩ := parse_some_elim T H doc u r h
  subst hr
  rw [buildRecord_kd, buildRecord_kills, buildRecord_deaths]
  refine ⟨rfl, ?_, ?_, ?_⟩
  · intro hd0 hk
    subst hd0
    exact kdRatioOf_deaths_zero_pos kills hk
  · intro hk hd
    subst hk
    subst hd
    exact kdRatioOf_zero_zero
  · intro hd
    rw [kdRatioOf_deaths_pos kills deaths hd]
    exact formatTwoDec_shape kills deaths

theorem c3_kd_ratio_derived_witness :
    ∃ r, parsePlayerData [] [] docC3 "user".toList = some r ∧
      r.kdRatioVal = kdRatioOf r.kills r.deaths :=
  ⟨recC3, rfl, (c3_kd_ratio_derived [] [] docC3 "user".toList recC3 rfl).1⟩

/-- C4: in a positively classified document with no rank token and an
extracted experience in `[41000, 57000)`, the derived rank is exactly
`First Sergeant`, following the threshold table literally. -/
theorem c4_experience_band_first_sergeant (T H : List Str) (doc : Document)
    (u : Str) (r : PlayerRecord) (hp : parsePlayerData T H doc u = some r)
    (hr : rankSearch doc.html = none)
    (h1 : 41000 ≤ r.experience) (h2 : r.experience < 57000) :
    r.rank = "First Sergeant".toList := by
  obtain ⟨exp, maxExp, kills, deaths, hE, hK, hD, hrr⟩ := parse_some_elim T H doc u r hp
  subst hrr
  rw [buildRecord_experience] at h1 h2
  rw [buildRecord_rank, hr, if_pos (by omega : exp > 0)]
  exact rankFromExperience_first_sergeant exp h1 h2

theorem c4_experience_band_first_sergeant_witness :
    (∃ r, parsePlayerData [] [] docC4 "user".toList = some r ∧
      rankSearch docC4.html = none ∧ 41000 ≤ r.experience ∧
      r.experience < 57000 ∧ r.rank = "First Sergeant".toList) ∧
    (∃ r, parsePlayerData [] [] docC4ru "user".toList = some r ∧
      rankSearch docC4ru.html = none ∧ r.experience = 50000 ∧
      r.rank = "First Sergeant".toList) :=
  ⟨⟨recC4, rfl, rfl, by decide, by decide,
     c4_experience_band_first_sergeant [] [] docC4 "user".toList recC4 rfl rfl
       (by decide) (by decide)⟩,
   ⟨recC4ru, rfl, rfl, rfl,
     c4_experience_band_first_sergeant [] [] docC4ru "user".toList recC4ru rfl
       rfl (by decide) (by decide)⟩⟩

/-- C5: experience-based rank derivation is monotonic: for positive
experience values `e1 < e2`, the rank derived from `e1` is never senior to
the rank derived from `e2` in the 31-tier progression (measured by the
`get_rank_emoji` tier index), Legend levels included. -/
theorem c5_rank_monotonic (e1 e2 : Nat) (_h0 : 0 < e1) (h : e1 < e2) :
    pairLE (rankSeniorityKey e1) (rankSeniorityKey e2) := by
  unfold rankSeniorityKey pairLE legendLevelOfExp legendLevel
  simp only [rankEmojiIndex_rankFromExperience]
  by_cases h1 : 1800000 ≤ e1 <;> by_cases h2 : 1800000 ≤ e2
  · rw [idxOfExp_legend e1 h1, idxOfExp_legend e2 h2, if_pos h1, if_pos h2]
    right
    exact ⟨rfl, max_le_max (le_refl 1)
      (Nat.div_le_div_right (Nat.sub_le_sub_right (le_of_lt h) _))⟩
  · omega
  · rw [if_neg h1, if_pos h2, idxOfExp_legend e2 h2]
    left
    have := idxOfExp_le_30 e1 h1
    omega
  · rw [if_neg h1, if_neg h2]
    have := idxOfExp_mono e1 e2 (le_of_lt h)
    omega

theorem c5_rank_monotonic_witness :
    0 < 5000 ∧ 5000 < 100000 ∧
      pairLE (rankSeniorityKey 5000) (rankSeniorityKey 100000) :=
  ⟨by decide, by decide, c5_rank_monotonic 5000 100000 (by decide) (by decide)⟩

/-- C6 counterexample: a positively classified document (`Kills: 7`) with
no rank token and extracted experience zero produces a record whose rank
is `Unknown`, not the lowest rank `Recruit` the claim demands. -/
theorem c6_zero_experience_counterexample :
    rankSearch docC6.html = none ∧
    (parsePlayerData [] [] docC6 "user".toList).map PlayerRecord.experience
      = some 0 ∧
    (parsePlayerData [] [] docC6 "user".toList).map PlayerRecord.rank
      = some "Unknown".toList ∧
    "Unknown".toList ≠ "Recruit".toList := by
  refine ⟨?_, ?_, ?_, ?_⟩ <;> decide

/-- C6 amended: with no rank pattern match and extracted experience zero,
the produced record's rank is the initial placeholder `Unknown` (the
experience-based fallback only runs for positive experience, and nothing
ever defaults the rank to `Recruit`). -/
theorem c6_zero_experience_rank_unknown (T H : List Str) (doc : Document)
    (u : Str) (r : PlayerRecord) (hp : parsePlayerData T H doc u = some r)
    (hr : rankSearch doc.html = none) (he : r.experience = 0) :
    r.rank = "Unknown".toList := by
  obtain ⟨exp, maxExp, kills, deaths, hE, hK, hD, hrr⟩ := parse_some_elim T H doc u r hp
  subst hrr
  rw [buildRecord_experience] at he
  rw [buildRecord_rank, hr, if_neg (by omega)]

theorem c6_zero_experience_rank_unknown_witness :
    ∃ r, parsePlayerData [] [] docC6 "user".toList = some r ∧
      r.rank = "Unknown".toList :=
  ⟨recC6, rfl, c6_zero_experience_rank_unknown [] [] docC6 "user".toList recC6
    rfl (by decide) (by decide)⟩

/-- C7 counterexample: the document `500/400` is positively classified
(non-default pair), and the produced record has experience 500 together
with maxExperience 400: the engine never checks the ordering, so
`experience ≤ maxExperience` fails. -/
theorem c7_pair_order_counterexample :
    (parsePlayerData [] [] docC7 "user".toList).map
        (fun r => (r.experience, r.max_experience)) = some (500, some 400) ∧
    ¬ (500 ≤ 400) :=
  ⟨by decide, by decide⟩

/-- C7 amended: when both experience fields are present they are exactly
the two integers parsed from the first matching current/total pair; no
ordering between them is guaranteed. -/
theorem c7_pair_both_parsed (T H : List Str) (doc : Document) (u : Str)
    (r : PlayerRecord) (m : Nat) (hp : parsePlayerData T H doc u = some r)
    (hm : r.max_experience = some m) :
    expPairResult doc.html = some (r.experience, m) := by
  obtain ⟨exp, maxExp, kills, deaths, hE, hK, hD, hrr⟩ := parse_some_elim T H doc u r hp
  subst hrr
  rw [buildRecord_maxExperience] at hm
  rw [buildRecord_experience]
  unfold parseExperience at hE
  rcases hq : expPairResult doc.html with _ | ⟨a, b⟩ <;> rw [hq] at hE
  · rcases hsng : singleExpOpt doc.html with _ | e <;> rw [hsng] at hE <;>
      simp only [Option.map_none, Option.map_some] at hE
    · exact absurd hE (by simp)
    · obtain ⟨he1, he2⟩ := Prod.mk.injEq .. ▸ Option.some.inj hE
      rw [← he2] at hm
      exact absurd hm (by simp)
  · obtain ⟨he1, he2⟩ := Prod.mk.injEq .. ▸ Option.some.inj hE
    rw [← he2] at hm
    rw [← he1, Option.some.inj hm]

theorem c7_pair_both_parsed_witness :
    ∃ r, parsePlayerData [] [] docC7 "user".toList = some r ∧
      r.max_experience = some 400 ∧
      expPairResult docC7.html = some (r.experience, 400) :=
  ⟨recC7, rfl, rfl,
    c7_pair_both_parsed [] [] docC7 "user".toList recC7 400 rfl rfl⟩

/-- C8 (code bug): for a name matched only by the bare `name` form (no
tier digits anywhere), the source still appends a tier: `re.findall` with
no capture group returns the full matched text, which is nonempty and not
a digit string, so the final `elif match:` branch glues it on after `M`,
producing `Freeze MFreeze` where the claim (and the dead
`turrets_found.append(turret)` branch) expects the bare `Freeze`. -/
theorem c8_bare_name_gets_tier :
    findallDet (matchEquipM "Freeze".toList) docC8.html = [] ∧
    findallDet (matchEquipD "Freeze".toList) docC8.html = [] ∧
    findallDet (matchEquipName "Freeze".toList) docC8.html ≠ [] ∧
    (parsePlayerData ["Freeze".toList] [] docC8 "user".toList).map
        PlayerRecord.turrets = some ["Freeze MFreeze".toList] ∧
    "Freeze MFreeze".toList ≠ "Freeze".toList := by
  refine ⟨?_, ?_, ?_, ?_, ?_⟩ <;> decide

/-- The fixed 31-tier progression of the glossary, lowest to highest. -/
def rankProgression : List Str :=
  ["Recruit".toList, "Private".toList, "Gefreiter".toList, "Corporal".toList,
   "Master Corporal".toList, "Sergeant".toList, "Staff Sergeant".toList,
   "Master Sergeant".toList, "First Sergeant".toList, "Sergeant Major".toList,
   "Warrant Officer 1".toList, "Warrant Officer 2".toList,
   "Warrant Officer 3".toList, "Warrant Officer 4".toList,
   "Warrant Officer 5".toList, "Third Lieutenant".toList,
   "Second Lieutenant".toList, "First Lieutenant".toList, "Captain".toList,
   "Major".toList, "Lieutenant Colonel".toList, "Colonel".toList,
   "Brigadier".toList, "Major General".toList, "Lieutenant General".toList,
   "General".toList, "Marshal".toList, "Field Marshal".toList,
   "Commander".toList, "Generalissimo".toList, "Legend".toList]

/-- C9: the rank-to-symbol mapping sends the 31 progression names to the
indices 1..31 in seniority order (hence uniquely); every `Legend ...`
label maps to 31 regardless of its level; and any name that neither
starts with `Legend` nor normalizes to a table key defaults to 31. -/
theorem c9_rank_index_progression :
    rankProgression.map rankEmojiIndex =
      [1, 2, 3, 4, 5, 6, 7, 8, 9, 10, 11, 12, 13, 14, 15, 16, 17, 18, 19, 20,
       21, 22, 23, 24, 25, 26, 27, 28, 29, 30, 31] ∧
    (∀ s : Str, rankEmojiIndex ("Legend ".toList ++ s) = 31) ∧
    (∀ s : Str, "Legend".toList.isPrefixOf s = false →
      rankIndexTable.find? (fun p => p.1 == underscoreLower s) = none →
      rankEmojiIndex s = 31) := by
  refine ⟨by decide, rankEmojiIndex_legend_append, ?_⟩
  intro s h1 h2
  unfold rankEmojiIndex
  rw [h1, h2]
  rfl

theorem c9_rank_index_progression_witness :
    rankEmojiIndex ("Legend ".toList ++ "7".toList) = 31 ∧
      rankEmojiIndex "Foobar".toList = 31 :=
  ⟨c9_rank_index_progression.2.1 "7".toList,
    c9_rank_index_progression.2.2 "Foobar".toList (by decide) (by decide)⟩

/-- C10: when the first position where the kills (resp. deaths) pattern
matches has the label followed by `[:\s]` separators and an unseparated
run of four or more digits, the captured group is only the first three
digits, so the extracted value is the integer they form (e.g.
`Kills: 1234` yields 123). -/
theorem c10_long_digit_runs_truncated :
    (∀ (T H : List Str) (doc : Document) (u : Str) (r : PlayerRecord)
        (pre mid sep : Str) (d1 d2 d3 d4 : Char) (rest : Str),
        parsePlayerData T H doc u = some r →
        doc.html = pre ++ mid →
        (∀ i, i < pre.length → matchKillsAt (doc.html.drop i) = none) →
        consumeKillsLabel mid = some (sep ++ (d1 :: d2 :: d3 :: d4 :: rest)) →
        sep.all isColonSpace = true →
        isDigitC d1 = true → isDigitC d2 = true → isDigitC d3 = true →
        isDigitC d4 = true →
        r.kills = natOfDigits [d1, d2, d3]) ∧
    (∀ (T H : List Str) (doc : Document) (u : Str) (r : PlayerRecord)
        (pre mid sep : Str) (d1 d2 d3 d4 : Char) (rest : Str),
        parsePlayerData T H doc u = some r →
        doc.html = pre ++ mid →
        (∀ i, i < pre.length → matchDeathsAt (doc.html.drop i) = none) →
        consumeDeathsLabel mid = some (sep ++ (d1 :: d2 :: d3 :: d4 :: rest)) →
        sep.all isColonSpace = true →
        isDigitC d1 = true → isDigitC d2 = true → isDigitC d3 = true →
        isDigitC d4 = true →
        r.deaths = natOfDigits [d1, d2, d3]) := by
  constructor
  · intro T H doc u r pre mid sep d1 d2 d3 d4 rest hp hhtml hnone hlab hsep h1 h2 h3 h4
    obtain ⟨exp, maxExp, kills, deaths, hE, hK, hD, hr⟩ := parse_some_elim T H doc u r hp
    subst hr
    rw [buildRecord_kills]
    have hmatch : matchKillsAt mid = some [d1, d2, d3] := by
      unfold matchKillsAt
      rw [hlab]
      exact groupAfterSeps sep hsep d1 d2 d3 d4 rest h1 h2 h3 h4
    rw [hhtml] at hnone
    have hsearch : searchKills doc.html = some [d1, d2, d3] := by
      rw [hhtml]
      exact searchDet_append matchKillsAt pre mid [d1, d2, d3] hnone hmatch
    have hko := killsOpt_of_search doc.html [d1, d2, d3] hsearch (by simp)
      (by simp [h1, h2, h3])
    rw [hK] at hko
    exact Option.some.inj hko
  · intro T H doc u r pre mid sep d1 d2 d3 d4 rest hp hhtml hnone hlab hsep h1 h2 h3 h4
    obtain ⟨exp, maxExp, kills, deaths, hE, hK, hD, hr⟩ := parse_some_elim T H doc u r hp
    subst hr
    rw [buildRecord_deaths]
    have hmatch : matchDeathsAt mid = some [d1, d2, d3] := by
      unfold matchDeathsAt
      rw [hlab]
      exact groupAfterSeps sep hsep d1 d2 d3 d4 rest h1 h2 h3 h4
    rw [hhtml] at hnone
    have hsearch : searchDeaths doc.html = some [d1, d2, d3] := by
      rw [hhtml]
      exact searchDet_append matchDeathsAt pre mid [d1, d2, d3] hnone hmatch
    have hdo := deathsOpt_of_search doc.html [d1, d2, d3] hsearch (by simp)
      (by simp [h1, h2, h3])
    rw [hD] at hdo
    exact Option.some.inj hdo

theorem c10_long_digit_runs_truncated_witness :
    (∃ r, parsePlayerData [] [] docC10k "user".toList = some r ∧
       r.kills = natOfDigits ['1', '2', '3']) ∧
    (∃ r, parsePlayerData [] [] docC10d "user".toList = some r ∧
       r.deaths = natOfDigits ['9', '8', '7']) :=
  ⟨⟨recC10k, rfl,
     c10_long_digit_runs_truncated.1 [] [] docC10k "user".toList recC10k
       [] "Kills: 1234".toList ": ".toList '1' '2' '3' '4' [] rfl rfl
       (fun i hi => absurd hi (Nat.not_lt_zero i)) rfl rfl rfl rfl rfl rfl⟩,
   ⟨recC10d, rfl,
     c10_long_digit_runs_truncated.2 [] [] docC10d "user".toList recC10d
       [] "Deaths: 9876".toList ": ".toList '9' '8' '7' '6' [] rfl rfl
       (fun i hi => absurd hi (Nat.not_lt_zero i)) rfl rfl rfl rfl rfl rfl⟩⟩
